import Mathlib

/-!
# Verification of the 6502-term emulator core

Shallow embedding of the emulator's data model and operations, translated
from the C sources: `queue.h`/the queue half of `memory.c` (byte queue), `monitored.c`/`monitored.h` (monitored RAM), `cpu_6502.c`/`cpu_6502.h`
(CPU core), `cpu_clock.c` (clock pacer state).

Machine integers are represented as `Nat`; wherever the C code's types
truncate (uint8_t, uint16_t) the translation applies `% 256` / `% 65536`
(or the corresponding bit masks that the C source itself writes).
Real-time sleeping in `clock_wait_next_cycle` is not modelled; only its
effect on the cycle counter is.  Mutex lock/unlock pairs and the pause
condition variable are concurrency plumbing with no effect on the
single-threaded state transition and are omitted.
-/

namespace Emu6502

/-! ## Byte queue (`queue.h`, queue functions in `memory.c`) -/

def QUEUE_SIZE : Nat := 1024

/-- `queue_t` from `queue.h`: ring buffer of `QUEUE_SIZE` bytes with
`head`, `tail`, `count` indexes (the mutex field carries no state). -/
structure Queue where
  data : Nat → Nat
  head : Nat
  tail : Nat
  count : Nat

/-- `queue_init` from `memory.c`. -/
def queue_init : Queue := ⟨fun _ => 0, 0, 0, 0⟩

/-- `queue_enqueue` from `memory.c`: reject when full, otherwise store the
byte at `tail`, advance `tail` modulo `QUEUE_SIZE`, bump `count`. -/
def queue_enqueue (q : Queue) (byte : Nat) : Bool × Queue :=
  if q.count = QUEUE_SIZE then
    (false, q)
  else
    (true,
     { data := fun i => if i = q.tail then byte % 256 else q.data i
       head := q.head
       tail := (q.tail + 1) % QUEUE_SIZE
       count := q.count + 1 })

/-- `queue_dequeue` from `memory.c`: `none` when empty, otherwise return
the byte at `head` and advance `head` modulo `QUEUE_SIZE`. -/
def queue_dequeue (q : Queue) : Option Nat × Queue :=
  if q.count = 0 then
    (none, q)
  else
    (some (q.data q.head % 256), { q with head := (q.head + 1) % QUEUE_SIZE, count := q.count - 1 })

/-- The ring-buffer invariant maintained by the queue operations:
`tail` is `head + count` reduced modulo the capacity. -/
def QueueInv (q : Queue) : Prop :=
  q.tail = (q.head + q.count) % QUEUE_SIZE ∧ q.count ≤ QUEUE_SIZE

instance (q : Queue) : Decidable (QueueInv q) := by
  unfold QueueInv; infer_instance

/-- Abstract FIFO contents of the ring buffer, oldest element first. -/
def queueContents (q : Queue) : List Nat :=
  (List.range q.count).map (fun i => q.data ((q.head + i) % QUEUE_SIZE) % 256)

/-- Enqueue a whole list of bytes in order (used by the monitored-RAM
message hooks, which loop `queue_enqueue` over a C string). -/
def enqueue_list (q : Queue) (l : List Nat) : Queue :=
  l.foldl (fun acc c => (queue_enqueue acc c).2) q

/-! ## Processor status flags

`set_flag`, `get_flag` and `update_zero_and_negative_flags` are used
throughout `cpu_6502.c` but their definitions are not among the sources
(only the flag indexes in `cpu_6502.h` are).  They are modelled from the
spec here. -/

def FLAG_CARRY : Nat := 0
def FLAG_ZERO : Nat := 1
def FLAG_INTERRUPT : Nat := 2
def FLAG_DECIMAL : Nat := 3
def FLAG_BREAK : Nat := 4
def FLAG_UNUSED : Nat := 5
def FLAG_OVERFLOW : Nat := 6
def FLAG_NEGATIVE : Nat := 7

/-- Modelled from the spec: `get_flag`'s definition is missing from the
sources.  Spec section 3 defines `P` as a byte of bit flags with the bit
positions given by `status_flag_t` in `cpu_6502.h`; `get_flag` reads one
such bit. -/
def get_flag (p : Nat) (f : Nat) : Bool := p.testBit f

/-- Modelled from the spec: `set_flag`'s definition is missing from the
sources.  It sets or clears bit `f` of the status byte `p`. -/
def set_flag (p : Nat) (f : Nat) (v : Bool) : Nat :=
  if v then p ||| (1 <<< f) else p &&& (0xFF ^^^ (1 <<< f))

/-- Modelled from the spec: `update_zero_and_negative_flags`'s definition
is missing from the sources.  Spec section 4.F: `Z = (result == 0)` and
`N = (result & 0x80) != 0`. -/
def update_zero_and_negative_flags (p : Nat) (value : Nat) : Nat :=
  set_flag (set_flag p FLAG_ZERO (value % 256 = 0)) FLAG_NEGATIVE
    ((value &&& 0x80) ≠ 0)

/-! ## CPU state (`cpu_6502.h`) -/

/-- The register file of `cpu_6502_t`. -/
structure CpuReg where
  A : Nat
  X : Nat
  Y : Nat
  PC : Nat
  SP : Nat
  P : Nat

/-- The emulator state relevant to the core semantics: registers, the
64 KiB monitored-RAM backing store (the single device `main.c` connects
to the bus over `0x0000..0xFFFF`), both I/O queues, the two interrupt
latches, and the clock pacer's cycle counter. -/
structure Machine where
  reg : CpuReg
  ram : Nat → Nat
  input_queue : Queue
  output_queue : Queue
  IRQ_pending : Bool
  NMI_pending : Bool
  cycle_count : Nat

def INPUT_ADDR : Nat := 0xD011
def OUTPUT_ADDR : Nat := 0xD012

def MONITORED_ADDR_OUTPUT_CHAR : Nat := 0x6000
def MONITORED_ADDR_TEST_STATUS : Nat := 0x6001
def MONITORED_ADDR_ADDITIONAL_STATUS : Nat := 0x6002

/-! ## Monitored RAM (`monitored.c`, `monitored.h`) -/

/-- Uppercase hexadecimal digit as an ASCII code (for the `snprintf`
formatting of the additional-status message). -/
def hexDigit (n : Nat) : Nat := if n < 10 then 48 + n else 55 + n

/-- `%04X` of a 16-bit value, as ASCII codes. -/
def hex4 (n : Nat) : List Nat :=
  [hexDigit ((n >>> 12) &&& 15), hexDigit ((n >>> 8) &&& 15), hexDigit ((n >>> 4) &&& 15), hexDigit (n &&& 15)]

/-- `%02X` of a byte, as ASCII codes. -/
def hex2 (n : Nat) : List Nat :=
  [hexDigit ((n >>> 4) &&& 15), hexDigit (n &&& 15)]

def asciiOf (msg : String) : List Nat := msg.toList.map Char.toNat

/-- The literal test-status messages of `monitored_ram_write`. -/
def test_passed_message : List Nat := asciiOf "6502 FUNCTIONAL TEST PASSED\r\n"

def test_failed_message : List Nat := asciiOf "6502 FUNCTIONAL TEST FAILED\r\n"

/-- The formatted additional-status messages of `monitored_ram_write`. -/
def additional_message (addr data : Nat) : List Nat :=
  if data = 0 then
    asciiOf "6502 FUNCTIONAL TEST PASSED (0x" ++ hex4 addr ++ asciiOf ")\r\n"
  else
    asciiOf "6502 FUNCTIONAL TEST FAILED (0x" ++ hex4 addr ++
      asciiOf ") with Error Code 0x" ++ hex2 data ++ asciiOf "\r\n"

/-- `monitored_ram_read` from `monitored.c`: plain load with the
power-of-two size mask (size `0x10000` in the emulator's configuration). -/
def monitored_ram_read (ram : Nat → Nat) (addr : Nat) : Nat :=
  ram (addr &&& 0xFFFF) % 256

/-- `monitored_ram_write` from `monitored.c`: always update the backing
store, then dispatch on the address: `0x6000` enqueues the byte on the
CPU output queue, `0x6001` enqueues the functional-test status message, `0x6002` enqueues the formatted additional-status message.  (One header
variant places the additional-status address at `0x0002`; the `0x6002`
variant is followed here, as section 9 of the spec records.) -/
def monitored_ram_write (ram : Nat → Nat) (outq : Queue) (addr data : Nat) :
    (Nat → Nat) × Queue :=
  let ram' := fun i => if i = addr &&& 0xFFFF then data % 256 else ram i
  let outq' :=
    if addr = MONITORED_ADDR_OUTPUT_CHAR then (queue_enqueue outq data).2
    else if addr = MONITORED_ADDR_TEST_STATUS then
      enqueue_list outq
        (if data % 256 = 0 then test_passed_message else test_failed_message)
    else if addr = MONITORED_ADDR_ADDITIONAL_STATUS then
      enqueue_list outq (additional_message (addr &&& 0xFFFF) (data % 256))
    else outq
  (ram', outq')

/-! ## Bus and CPU memory access -/

/-- Modelled from the spec: `bus.c` is not among the sources (only
`bus.h`).  Spec section 4.E specifies first-match routing; `main.c`
connects a single 64 KiB monitored RAM over `0x0000..0xFFFF`, so every
bus read reaches `monitored_ram_read`. -/
def bus_read (s : Machine) (addr : Nat) : Nat :=
  monitored_ram_read s.ram addr

/-- Modelled from the spec: `bus.c` is not among the sources.  Every bus
write reaches `monitored_ram_write` of the single connected device. -/
def bus_write (s : Machine) (addr data : Nat) : Machine :=
  let rw := monitored_ram_write s.ram s.output_queue addr data
  { s with ram := rw.1, output_queue := rw.2 }

/-- `cpu_read` from `cpu_6502.c`: reads of `INPUT_ADDR` dequeue from the
input queue (returning `0x00` when empty); all other reads go to the
bus. -/
def cpu_read (s : Machine) (addr : Nat) : Nat × Machine :=
  if addr = INPUT_ADDR then
    match queue_dequeue s.input_queue with
    | (some dataByte, q') => (dataByte, { s with input_queue := q' })
    | (none, q') => (0x00, { s with input_queue := q' })
  else
    (bus_read s addr, s)

/-- `cpu_write` from `cpu_6502.c`: writes to `OUTPUT_ADDR` enqueue on the
output queue instead of reaching the bus; all other writes go to the
bus. -/
def cpu_write (s : Machine) (addr data : Nat) : Machine :=
  if addr = OUTPUT_ADDR then
    { s with output_queue := (queue_enqueue s.output_queue data).2 }
  else
    bus_write s addr data

/-! ## Stack and fetch helpers (`cpu_6502.c`) -/

/-- `push_byte`: store at `0x0100 + SP`, then decrement `SP` (8-bit
wrap-around). -/
def push_byte (s : Machine) (value : Nat) : Machine :=
  let s1 := cpu_write s (0x0100 + s.reg.SP) value
  { s1 with reg := { s1.reg with SP := (s1.reg.SP + 255) % 256 } }

/-- `pull_byte`: increment `SP` (8-bit wrap-around), then load from
`0x0100 + SP`. -/
def pull_byte (s : Machine) : Nat × Machine :=
  let s1 : Machine := { s with reg := { s.reg with SP := (s.reg.SP + 1) % 256 } }
  cpu_read s1 (0x0100 + s1.reg.SP)

/-- `push_word`: high byte first, then low byte. -/
def push_word (s : Machine) (value : Nat) : Machine :=
  push_byte (push_byte s ((value >>> 8) &&& 0xFF)) (value &&& 0xFF)

/-- `pull_word`: low byte first, then high byte. -/
def pull_word (s : Machine) : Nat × Machine :=
  let r1 := pull_byte s
  let r2 := pull_byte r1.2
  (r1.1 ||| (r2.1 <<< 8), r2.2)

/-- `fetch_byte`: read at `PC`, increment `PC` (16-bit wrap-around). -/
def fetch_byte (s : Machine) : Nat × Machine :=
  let r := cpu_read s s.reg.PC
  (r.1, { r.2 with reg := { r.2.reg with PC := (r.2.reg.PC + 1) % 0x10000 } })

/-- `fetch_word`: two `fetch_byte`s combined little-endian. -/
def fetch_word (s : Machine) : Nat × Machine :=
  let r1 := fetch_byte s
  let r2 := fetch_byte r1.2
  ((r2.1 <<< 8) ||| r1.1, r2.2)

/-! ## Addressing modes (`cpu_6502.c`) -/

/-- `effective_address_t`. -/
structure EffAddr where
  address : Nat
  page_crossed : Bool

/-- The type of an addressing-mode procedure (`addressing_mode_func_t`), in state-passing form. -/
abbrev AddrMode := Machine → EffAddr × Machine

def addr_immediate : AddrMode := fun s =>
  (⟨s.reg.PC, false⟩, { s with reg := { s.reg with PC := (s.reg.PC + 1) % 0x10000 } })

def addr_zero_page : AddrMode := fun s =>
  let r := fetch_byte s
  (⟨r.1 % 256, false⟩, r.2)

def addr_zero_page_x : AddrMode := fun s =>
  let r := fetch_byte s
  (⟨(r.1 + r.2.reg.X) &&& 0xFF, false⟩, r.2)

def addr_zero_page_y : AddrMode := fun s =>
  let r := fetch_byte s
  (⟨(r.1 + r.2.reg.Y) &&& 0xFF, false⟩, r.2)

def addr_absolute : AddrMode := fun s =>
  let r := fetch_word s
  (⟨r.1, false⟩, r.2)

def addr_absolute_x : AddrMode := fun s =>
  let r := fetch_word s
  let base_address := r.1
  let effective_address := (base_address + r.2.reg.X) % 0x10000
  (⟨effective_address, (base_address &&& 0xFF00) ≠ (effective_address &&& 0xFF00)⟩, r.2)

def addr_absolute_y : AddrMode := fun s =>
  let r := fetch_word s
  let base_address := r.1
  let effective_address := (base_address + r.2.reg.Y) % 0x10000
  (⟨effective_address, (base_address &&& 0xFF00) ≠ (effective_address &&& 0xFF00)⟩, r.2)

/-- Indirect addressing for `JMP`, with the 6502 page-wrap bug on the
high-byte read. -/
def addr_indirect : AddrMode := fun s =>
  let rp := fetch_word s
  let ptr := rp.1
  let rl := cpu_read rp.2 ptr
  let rh := cpu_read rl.2 ((ptr &&& 0xFF00) ||| ((ptr + 1) &&& 0x00FF))
  (⟨(rh.1 <<< 8) ||| rl.1, false⟩, rh.2)

def addr_indirect_x : AddrMode := fun s =>
  let rb := fetch_byte s
  let base := (rb.1 + rb.2.reg.X) &&& 0xFF
  let rl := cpu_read rb.2 base
  let rh := cpu_read rl.2 ((base + 1) &&& 0xFF)
  (⟨(rh.1 <<< 8) ||| rl.1, false⟩, rh.2)

def addr_indirect_y : AddrMode := fun s =>
  let rb := fetch_byte s
  let base := rb.1 % 256
  let rl := cpu_read rb.2 base
  let rh := cpu_read rl.2 ((base + 1) &&& 0xFF)
  let base_address := (rh.1 <<< 8) ||| rl.1
  let effective_address := (base_address + rh.2.reg.Y) % 0x10000
  (⟨effective_address, (base_address &&& 0xFF00) ≠ (effective_address &&& 0xFF00)⟩, rh.2)

/-- Relative addressing: the operand is sign-extended (`int8_t`) and
added to `PC` (16-bit wrap). -/
def addr_relative : AddrMode := fun s =>
  let r := fetch_byte s
  let offset := r.1 % 256
  let effective_address :=
    (r.2.reg.PC + (if offset < 128 then offset else offset + 0xFF00)) % 0x10000
  (⟨effective_address, (r.2.reg.PC &&& 0xFF00) ≠ (effective_address &&& 0xFF00)⟩, r.2)

/-! ## Instructions (`cpu_6502.c`)

Each C instruction function becomes a `Machine → Machine` transformer;
the ones whose C counterparts take an addressing mode take it as the
first argument, the "implied" ones (whose C counterparts ignore their
`mode` argument) take none. -/

def carry_in (s : Machine) : Nat := if get_flag s.reg.P FLAG_CARRY then 1 else 0

/-- `instr_adc`, including the decimal-mode branch. -/
def instr_adc (mode : AddrMode) (s : Machine) : Machine :=
  let rea := mode s
  let ea := rea.1
  let rv := cpu_read rea.2 ea.address
  let value := rv.1
  let s2 := rv.2
  let s3 :=
    if get_flag s2.reg.P FLAG_DECIMAL then
      let al := (s2.reg.A &&& 0x0F) + (value &&& 0x0F) + carry_in s2
      let ah := (s2.reg.A % 256) >>> 4 + (value % 256) >>> 4
      let al2 := if al > 9 then al - 10 else al
      let ah2 := if al > 9 then ah + 1 else ah
      let p1 :=
        if ah2 > 9 then set_flag s2.reg.P FLAG_CARRY true
        else set_flag s2.reg.P FLAG_CARRY false
      let ah3 := if ah2 > 9 then ah2 - 10 else ah2
      let a := ((ah3 <<< 4) ||| (al2 &&& 0x0F)) % 256
      { s2 with reg := { s2.reg with A := a, P := update_zero_and_negative_flags p1 a } }
    else
      let sum := s2.reg.A + value + carry_in s2
      let p1 := set_flag s2.reg.P FLAG_CARRY (sum > 0xFF)
      let result := sum &&& 0xFF
      let p2 := set_flag p1 FLAG_OVERFLOW
        ((((s2.reg.A ^^^ value) ^^^ 0xFF) &&& (s2.reg.A ^^^ result) &&& 0x80) ≠ 0)
      { s2 with reg := { s2.reg with A := result, P := update_zero_and_negative_flags p2 result } }
  if ea.page_crossed then { s3 with cycle_count := s3.cycle_count + 1 } else s3

def instr_and (mode : AddrMode) (s : Machine) : Machine :=
  let rea := mode s
  let rv := cpu_read rea.2 rea.1.address
  let a := rv.2.reg.A &&& rv.1
  let s3 := { rv.2 with reg := { rv.2.reg with A := a, P := update_zero_and_negative_flags rv.2.reg.P a } }
  if rea.1.page_crossed then { s3 with cycle_count := s3.cycle_count + 1 } else s3

def instr_asl (mode : AddrMode) (s : Machine) : Machine :=
  let rea := mode s
  let addr := rea.1.address
  let rv := cpu_read rea.2 addr
  let p1 := set_flag rv.2.reg.P FLAG_CARRY ((rv.1 &&& 0x80) ≠ 0)
  let value := (rv.1 <<< 1) % 256
  let s3 := cpu_write { rv.2 with reg := { rv.2.reg with P := p1 } } addr value
  let s4 := { s3 with reg := { s3.reg with
                P := update_zero_and_negative_flags s3.reg.P value } }
  if rea.1.page_crossed then { s4 with cycle_count := s4.cycle_count + 1 } else s4

def instr_asl_accumulator (s : Machine) : Machine :=
  let p1 := set_flag s.reg.P FLAG_CARRY ((s.reg.A &&& 0x80) ≠ 0)
  let a := (s.reg.A <<< 1) % 256
  { s with reg := { s.reg with A := a, P := update_zero_and_negative_flags p1 a } }

/-- Shared shape of the eight conditional branches: on a taken branch
commit the target and add one cycle, plus one more on a page cross. -/
def branch_commit (s : Machine) (ea : EffAddr) : Machine :=
  let s1 := { s with reg := { s.reg with PC := ea.address }, cycle_count := s.cycle_count + 1 }
  if ea.page_crossed then { s1 with cycle_count := s1.cycle_count + 1 } else s1

def instr_bcc (mode : AddrMode) (s : Machine) : Machine :=
  let rea := mode s
  if ¬get_flag rea.2.reg.P FLAG_CARRY then branch_commit rea.2 rea.1 else rea.2

def instr_bcs (mode : AddrMode) (s : Machine) : Machine :=
  let rea := mode s
  if get_flag rea.2.reg.P FLAG_CARRY then branch_commit rea.2 rea.1 else rea.2

def instr_beq (mode : AddrMode) (s : Machine) : Machine :=
  let rea := mode s
  if get_flag rea.2.reg.P FLAG_ZERO then branch_commit rea.2 rea.1 else rea.2

def instr_bit (mode : AddrMode) (s : Machine) : Machine :=
  let rea := mode s
  let rv := cpu_read rea.2 rea.1.address
  let result := rv.2.reg.A &&& rv.1
  let p1 := set_flag rv.2.reg.P FLAG_ZERO (result = 0)
  let p2 := set_flag p1 FLAG_OVERFLOW ((rv.1 &&& 0x40) ≠ 0)
  let p3 := set_flag p2 FLAG_NEGATIVE ((rv.1 &&& 0x80) ≠ 0)
  { rv.2 with reg := { rv.2.reg with P := p3 } }

def instr_bmi (mode : AddrMode) (s : Machine) : Machine :=
  let rea := mode s
  if get_flag rea.2.reg.P FLAG_NEGATIVE then branch_commit rea.2 rea.1 else rea.2

def instr_bne (mode : AddrMode) (s : Machine) : Machine :=
  let rea := mode s
  if ¬get_flag rea.2.reg.P FLAG_ZERO then branch_commit rea.2 rea.1 else rea.2

def instr_bpl (mode : AddrMode) (s : Machine) : Machine :=
  let rea := mode s
  if ¬get_flag rea.2.reg.P FLAG_NEGATIVE then branch_commit rea.2 rea.1 else rea.2

/-- `instr_brk`: `PC++`, push `PC`, set `B`, push `P | 0x10`, set `I`, load `PC` from the vector at `0xFFFE/0xFFFF`. -/
def instr_brk (s : Machine) : Machine :=
  let s1 : Machine := { s with reg := { s.reg with PC := (s.reg.PC + 1) % 0x10000 } }
  let s2 := push_word s1 s1.reg.PC
  let s3 : Machine := { s2 with reg := { s2.reg with
                P := set_flag s2.reg.P FLAG_BREAK true } }
  let s4 := push_byte s3 (s3.reg.P ||| 0x10)
  let s5 : Machine := { s4 with reg := { s4.reg with
                P := set_flag s4.reg.P FLAG_INTERRUPT true } }
  let rl := cpu_read s5 0xFFFE
  let rh := cpu_read rl.2 0xFFFF
  { rh.2 with reg := { rh.2.reg with PC := rl.1 ||| (rh.1 <<< 8) } }

def instr_bvc (mode : AddrMode) (s : Machine) : Machine :=
  let rea := mode s
  if ¬get_flag rea.2.reg.P FLAG_OVERFLOW then branch_commit rea.2 rea.1 else rea.2

def instr_bvs (mode : AddrMode) (s : Machine) : Machine :=
  let rea := mode s
  if get_flag rea.2.reg.P FLAG_OVERFLOW then branch_commit rea.2 rea.1 else rea.2

def instr_clc (s : Machine) : Machine :=
  { s with reg := { s.reg with P := set_flag s.reg.P FLAG_CARRY false } }

def instr_cld (s : Machine) : Machine :=
  { s with reg := { s.reg with P := set_flag s.reg.P FLAG_DECIMAL false } }

def instr_cli (s : Machine) : Machine :=
  { s with reg := { s.reg with P := set_flag s.reg.P FLAG_INTERRUPT false } }

def instr_clv (s : Machine) : Machine :=
  { s with reg := { s.reg with P := set_flag s.reg.P FLAG_OVERFLOW false } }

def instr_cmp (mode : AddrMode) (s : Machine) : Machine :=
  let rea := mode s
  let rv := cpu_read rea.2 rea.1.address
  let result := (rv.2.reg.A + 256 - rv.1) % 256
  let p1 := set_flag rv.2.reg.P FLAG_CARRY (rv.2.reg.A ≥ rv.1)
  let s3 := { rv.2 with reg := { rv.2.reg with
                P := update_zero_and_negative_flags p1 result } }
  if rea.1.page_crossed then { s3 with cycle_count := s3.cycle_count + 1 } else s3

def instr_cpx (mode : AddrMode) (s : Machine) : Machine :=
  let rea := mode s
  let rv := cpu_read rea.2 rea.1.address
  let result := (rv.2.reg.X + 256 - rv.1) % 256
  let p1 := set_flag rv.2.reg.P FLAG_CARRY (rv.2.reg.X ≥ rv.1)
  { rv.2 with reg := { rv.2.reg with
      P := update_zero_and_negative_flags p1 result } }

def instr_cpy (mode : AddrMode) (s : Machine) : Machine :=
  let rea := mode s
  let rv := cpu_read rea.2 rea.1.address
  let result := (rv.2.reg.Y + 256 - rv.1) % 256
  let p1 := set_flag rv.2.reg.P FLAG_CARRY (rv.2.reg.Y ≥ rv.1)
  { rv.2 with reg := { rv.2.reg with
      P := update_zero_and_negative_flags p1 result } }

def instr_dec (mode : AddrMode) (s : Machine) : Machine :=
  let rea := mode s
  let addr := rea.1.address
  let rv := cpu_read rea.2 addr
  let value := (rv.1 + 255) % 256
  let s3 := cpu_write rv.2 addr value
  { s3 with reg := { s3.reg with
      P := update_zero_and_negative_flags s3.reg.P value } }

def instr_dex (s : Machine) : Machine :=
  let x := (s.reg.X + 255) % 256
  { s with reg := { s.reg with X := x, P := update_zero_and_negative_flags s.reg.P x } }

def instr_dey (s : Machine) : Machine :=
  let y := (s.reg.Y + 255) % 256
  { s with reg := { s.reg with Y := y, P := update_zero_and_negative_flags s.reg.P y } }

def instr_eor (mode : AddrMode) (s : Machine) : Machine :=
  let rea := mode s
  let rv := cpu_read rea.2 rea.1.address
  let a := (rv.2.reg.A ^^^ rv.1) % 256
  let s3 := { rv.2 with reg := { rv.2.reg with A := a, P := update_zero_and_negative_flags rv.2.reg.P a } }
  if rea.1.page_crossed then { s3 with cycle_count := s3.cycle_count + 1 } else s3

def instr_inc (mode : AddrMode) (s : Machine) : Machine :=
  let rea := mode s
  let addr := rea.1.address
  let rv := cpu_read rea.2 addr
  let value := (rv.1 + 1) % 256
  let s3 := cpu_write rv.2 addr value
  { s3 with reg := { s3.reg with
      P := update_zero_and_negative_flags s3.reg.P value } }

def instr_inx (s : Machine) : Machine :=
  let x := (s.reg.X + 1) % 256
  { s with reg := { s.reg with X := x, P := update_zero_and_negative_flags s.reg.P x } }

def instr_iny (s : Machine) : Machine :=
  let y := (s.reg.Y + 1) % 256
  { s with reg := { s.reg with Y := y, P := update_zero_and_negative_flags s.reg.P y } }

def instr_jmp (mode : AddrMode) (s : Machine) : Machine :=
  let rea := mode s
  { rea.2 with reg := { rea.2.reg with PC := rea.1.address } }

def instr_jsr (mode : AddrMode) (s : Machine) : Machine :=
  let rea := mode s
  let s2 := push_word rea.2 ((rea.2.reg.PC + 0xFFFF) % 0x10000)
  { s2 with reg := { s2.reg with PC := rea.1.address } }

def instr_lda (mode : AddrMode) (s : Machine) : Machine :=
  let rea := mode s
  let rv := cpu_read rea.2 rea.1.address
  let s3 := { rv.2 with reg := { rv.2.reg with A := rv.1, P := update_zero_and_negative_flags rv.2.reg.P rv.1 } }
  if rea.1.page_crossed then { s3 with cycle_count := s3.cycle_count + 1 } else s3

def instr_ldx (mode : AddrMode) (s : Machine) : Machine :=
  let rea := mode s
  let rv := cpu_read rea.2 rea.1.address
  let s3 := { rv.2 with reg := { rv.2.reg with X := rv.1, P := update_zero_and_negative_flags rv.2.reg.P rv.1 } }
  if rea.1.page_crossed then { s3 with cycle_count := s3.cycle_count + 1 } else s3

def instr_ldy (mode : AddrMode) (s : Machine) : Machine :=
  let rea := mode s
  let rv := cpu_read rea.2 rea.1.address
  let s3 := { rv.2 with reg := { rv.2.reg with Y := rv.1, P := update_zero_and_negative_flags rv.2.reg.P rv.1 } }
  if rea.1.page_crossed then { s3 with cycle_count := s3.cycle_count + 1 } else s3

def instr_lsr (mode : AddrMode) (s : Machine) : Machine :=
  let rea := mode s
  let addr := rea.1.address
  let rv := cpu_read rea.2 addr
  let p1 := set_flag rv.2.reg.P FLAG_CARRY ((rv.1 &&& 0x01) ≠ 0)
  let value := rv.1 >>> 1
  let s3 := cpu_write { rv.2 with reg := { rv.2.reg with P := p1 } } addr value
  { s3 with reg := { s3.reg with
      P := update_zero_and_negative_flags s3.reg.P value } }

def instr_lsr_accumulator (s : Machine) : Machine :=
  let p1 := set_flag s.reg.P FLAG_CARRY ((s.reg.A &&& 0x01) ≠ 0)
  let a := s.reg.A >>> 1
  { s with reg := { s.reg with A := a, P := update_zero_and_negative_flags p1 a } }

def instr_nop (s : Machine) : Machine := s

def instr_ora (mode : AddrMode) (s : Machine) : Machine :=
  let rea := mode s
  let rv := cpu_read rea.2 rea.1.address
  let a := rv.2.reg.A ||| rv.1
  let s3 := { rv.2 with reg := { rv.2.reg with A := a, P := update_zero_and_negative_flags rv.2.reg.P a } }
  if rea.1.page_crossed then { s3 with cycle_count := s3.cycle_count + 1 } else s3

def instr_pha (s : Machine) : Machine := push_byte s s.reg.A

/-- `instr_php`: pushes `P | 0x30` (Break and Unused set in the pushed
byte). -/
def instr_php (s : Machine) : Machine := push_byte s (s.reg.P ||| 0x30)

def instr_pla (s : Machine) : Machine :=
  let rv := pull_byte s
  { rv.2 with reg := { rv.2.reg with A := rv.1, P := update_zero_and_negative_flags rv.2.reg.P rv.1 } }

/-- `instr_plp`: pulls and clears the Break bit, sets the Unused bit. -/
def instr_plp (s : Machine) : Machine :=
  let rv := pull_byte s
  { rv.2 with reg := { rv.2.reg with P := (rv.1 &&& 0xEF) ||| 0x20 } }

def instr_rol (mode : AddrMode) (s : Machine) : Machine :=
  let rea := mode s
  let addr := rea.1.address
  let rv := cpu_read rea.2 addr
  let cin := carry_in rv.2
  let p1 := set_flag rv.2.reg.P FLAG_CARRY ((rv.1 &&& 0x80) ≠ 0)
  let value := ((rv.1 <<< 1) ||| cin) % 256
  let s3 := cpu_write { rv.2 with reg := { rv.2.reg with P := p1 } } addr value
  { s3 with reg := { s3.reg with
      P := update_zero_and_negative_flags s3.reg.P value } }

def instr_rol_accumulator (s : Machine) : Machine :=
  let cin := carry_in s
  let p1 := set_flag s.reg.P FLAG_CARRY ((s.reg.A &&& 0x80) ≠ 0)
  let a := ((s.reg.A <<< 1) ||| cin) % 256
  { s with reg := { s.reg with A := a, P := update_zero_and_negative_flags p1 a } }

def instr_ror (mode : AddrMode) (s : Machine) : Machine :=
  let rea := mode s
  let addr := rea.1.address
  let rv := cpu_read rea.2 addr
  let cin := carry_in rv.2 <<< 7
  let p1 := set_flag rv.2.reg.P FLAG_CARRY ((rv.1 &&& 0x01) ≠ 0)
  let value := (rv.1 >>> 1) ||| cin
  let s3 := cpu_write { rv.2 with reg := { rv.2.reg with P := p1 } } addr value
  { s3 with reg := { s3.reg with
      P := update_zero_and_negative_flags s3.reg.P value } }

def instr_ror_accumulator (s : Machine) : Machine :=
  let cin := if get_flag s.reg.P FLAG_CARRY then 0x80 else 0x00
  let p1 := set_flag s.reg.P FLAG_CARRY ((s.reg.A &&& 0x01) ≠ 0)
  let a := (s.reg.A >>> 1) ||| cin
  { s with reg := { s.reg with A := a, P := update_zero_and_negative_flags p1 a } }

/-- `instr_rti`: pulls `P` raw, then pulls `PC`. -/
def instr_rti (s : Machine) : Machine :=
  let rp := pull_byte s
  let s1 : Machine := { rp.2 with reg := { rp.2.reg with P := rp.1 } }
  let rw := pull_word s1
  { rw.2 with reg := { rw.2.reg with PC := rw.1 } }

def instr_rts (s : Machine) : Machine :=
  let rw := pull_word s
  { rw.2 with reg := { rw.2.reg with PC := (rw.1 + 1) % 0x10000 } }

/-- `instr_sbc`: binary mode as in the source; in decimal mode the C
function's body is empty (its comment reads "the BCD mode implementation
is omitted"), so only the page-cross cycle adjustment happens. -/
def instr_sbc (mode : AddrMode) (s : Machine) : Machine :=
  let rea := mode s
  let rv := cpu_read rea.2 rea.1.address
  let value := rv.1
  let s2 := rv.2
  let carry := if get_flag s2.reg.P FLAG_CARRY then 0 else 1
  let s3 :=
    if get_flag s2.reg.P FLAG_DECIMAL then
      s2
    else
      let diff := (s2.reg.A + 0x20000 - value - carry) % 0x10000
      let p1 := set_flag s2.reg.P FLAG_CARRY (diff < 0x100)
      let result := diff &&& 0xFF
      let p2 := set_flag p1 FLAG_OVERFLOW
        (((s2.reg.A ^^^ value) &&& (s2.reg.A ^^^ result) &&& 0x80) ≠ 0)
      { s2 with reg := { s2.reg with A := result, P := update_zero_and_negative_flags p2 result } }
  if rea.1.page_crossed then { s3 with cycle_count := s3.cycle_count + 1 } else s3

def instr_sec (s : Machine) : Machine :=
  { s with reg := { s.reg with P := set_flag s.reg.P FLAG_CARRY true } }

def instr_sed (s : Machine) : Machine :=
  { s with reg := { s.reg with P := set_flag s.reg.P FLAG_DECIMAL true } }

def instr_sei (s : Machine) : Machine :=
  { s with reg := { s.reg with P := set_flag s.reg.P FLAG_INTERRUPT true } }

def instr_sta (mode : AddrMode) (s : Machine) : Machine :=
  let rea := mode s
  cpu_write rea.2 rea.1.address rea.2.reg.A

def instr_stx (mode : AddrMode) (s : Machine) : Machine :=
  let rea := mode s
  cpu_write rea.2 rea.1.address rea.2.reg.X

def instr_sty (mode : AddrMode) (s : Machine) : Machine :=
  let rea := mode s
  cpu_write rea.2 rea.1.address rea.2.reg.Y

def instr_tax (s : Machine) : Machine :=
  { s with reg := { s.reg with X := s.reg.A, P := update_zero_and_negative_flags s.reg.P s.reg.A } }

def instr_tay (s : Machine) : Machine :=
  { s with reg := { s.reg with Y := s.reg.A, P := update_zero_and_negative_flags s.reg.P s.reg.A } }

def instr_tsx (s : Machine) : Machine :=
  { s with reg := { s.reg with X := s.reg.SP, P := update_zero_and_negative_flags s.reg.P s.reg.SP } }

def instr_txa (s : Machine) : Machine :=
  { s with reg := { s.reg with A := s.reg.X, P := update_zero_and_negative_flags s.reg.P s.reg.X } }

def instr_txs (s : Machine) : Machine :=
  { s with reg := { s.reg with SP := s.reg.X } }

def instr_tya (s : Machine) : Machine :=
  { s with reg := { s.reg with A := s.reg.Y, P := update_zero_and_negative_flags s.reg.P s.reg.Y } }

/-! ## Opcode table (`initialize_opcode_table` in `cpu_6502.c`)

`opcode_entry_t` carries the mnemonic, the executed procedure (with its
addressing mode), a base cycle cost and a byte count.  As in the C
table, `cycles` and `bytes` are recorded here even though
`cpu_execute_instruction` never reads them. -/

structure OpcodeEntry where
  mnemonic : String
  execute : Option (Machine → Machine)
  cycles : Nat
  bytes : Nat

/-- Entries not set by `initialize_opcode_table` (mnemonic `???`,
`execute = NULL`). -/
def undefined_opcode : OpcodeEntry := ⟨"???", none, 0, 1⟩

def opcode_table (op : Nat) : OpcodeEntry :=
  match op with
  | 0x69 => ⟨"ADC", some (instr_adc addr_immediate), 2, 2⟩
  | 0x65 => ⟨"ADC", some (instr_adc addr_zero_page), 3, 2⟩
  | 0x75 => ⟨"ADC", some (instr_adc addr_zero_page_x), 4, 2⟩
  | 0x6D => ⟨"ADC", some (instr_adc addr_absolute), 4, 3⟩
  | 0x7D => ⟨"ADC", some (instr_adc addr_absolute_x), 4, 3⟩
  | 0x79 => ⟨"ADC", some (instr_adc addr_absolute_y), 4, 3⟩
  | 0x61 => ⟨"ADC", some (instr_adc addr_indirect_x), 6, 2⟩
  | 0x71 => ⟨"ADC", some (instr_adc addr_indirect_y), 5, 2⟩
  | 0x29 => ⟨"AND", some (instr_and addr_immediate), 2, 2⟩
  | 0x25 => ⟨"AND", some (instr_and addr_zero_page), 3, 2⟩
  | 0x35 => ⟨"AND", some (instr_and addr_zero_page_x), 4, 2⟩
  | 0x2D => ⟨"AND", some (instr_and addr_absolute), 4, 3⟩
  | 0x3D => ⟨"AND", some (instr_and addr_absolute_x), 4, 3⟩
  | 0x39 => ⟨"AND", some (instr_and addr_absolute_y), 4, 3⟩
  | 0x21 => ⟨"AND", some (instr_and addr_indirect_x), 6, 2⟩
  | 0x31 => ⟨"AND", some (instr_and addr_indirect_y), 5, 2⟩
  | 0x0A => ⟨"ASL", some instr_asl_accumulator, 2, 1⟩
  | 0x06 => ⟨"ASL", some (instr_asl addr_zero_page), 5, 2⟩
  | 0x16 => ⟨"ASL", some (instr_asl addr_zero_page_x), 6, 2⟩
  | 0x0E => ⟨"ASL", some (instr_asl addr_absolute), 6, 3⟩
  | 0x1E => ⟨"ASL", some (instr_asl addr_absolute_x), 7, 3⟩
  | 0x90 => ⟨"BCC", some (instr_bcc addr_relative), 2, 2⟩
  | 0xB0 => ⟨"BCS", some (instr_bcs addr_relative), 2, 2⟩
  | 0xF0 => ⟨"BEQ", some (instr_beq addr_relative), 2, 2⟩
  | 0x24 => ⟨"BIT", some (instr_bit addr_zero_page), 3, 2⟩
  | 0x2C => ⟨"BIT", some (instr_bit addr_absolute), 4, 3⟩
  | 0x30 => ⟨"BMI", some (instr_bmi addr_relative), 2, 2⟩
  | 0xD0 => ⟨"BNE", some (instr_bne addr_relative), 2, 2⟩
  | 0x10 => ⟨"BPL", some (instr_bpl addr_relative), 2, 2⟩
  | 0x00 => ⟨"BRK", some instr_brk, 7, 1⟩
  | 0x50 => ⟨"BVC", some (instr_bvc addr_relative), 2, 2⟩
  | 0x70 => ⟨"BVS", some (instr_bvs addr_relative), 2, 2⟩
  | 0x18 => ⟨"CLC", some instr_clc, 2, 1⟩
  | 0xD8 => ⟨"CLD", some instr_cld, 2, 1⟩
  | 0x58 => ⟨"CLI", some instr_cli, 2, 1⟩
  | 0xB8 => ⟨"CLV", some instr_clv, 2, 1⟩
  | 0xC9 => ⟨"CMP", some (instr_cmp addr_immediate), 2, 2⟩
  | 0xC5 => ⟨"CMP", some (instr_cmp addr_zero_page), 3, 2⟩
  | 0xD5 => ⟨"CMP", some (instr_cmp addr_zero_page_x), 3, 2⟩
  | 0xCD => ⟨"CMP", some (instr_cmp addr_absolute), 4, 3⟩
  | 0xDD => ⟨"CMP", some (instr_cmp addr_absolute_x), 4, 3⟩
  | 0xD9 => ⟨"CMP", some (instr_cmp addr_absolute_y), 4, 3⟩
  | 0xC1 => ⟨"CMP", some (instr_cmp addr_indirect_x), 6, 2⟩
  | 0xD1 => ⟨"CMP", some (instr_cmp addr_indirect_y), 5, 2⟩
  | 0xE0 => ⟨"CPX", some (instr_cpx addr_immediate), 2, 2⟩
  | 0xE4 => ⟨"CPX", some (instr_cpx addr_zero_page), 3, 2⟩
  | 0xEC => ⟨"CPX", some (instr_cpx addr_absolute), 4, 3⟩
  | 0xC0 => ⟨"CPY", some (instr_cpy addr_immediate), 2, 2⟩
  | 0xC4 => ⟨"CPY", some (instr_cpy addr_zero_page), 3, 2⟩
  | 0xCC => ⟨"CPY", some (instr_cpy addr_absolute), 4, 3⟩
  | 0xC6 => ⟨"DEC", some (instr_dec addr_zero_page), 5, 2⟩
  | 0xD6 => ⟨"DEC", some (instr_dec addr_zero_page_x), 5, 2⟩
  | 0xCE => ⟨"DEC", some (instr_dec addr_absolute), 6, 3⟩
  | 0xDE => ⟨"DEC", some (instr_dec addr_absolute_x), 7, 3⟩
  | 0xCA => ⟨"DEX", some instr_dex, 2, 1⟩
  | 0x88 => ⟨"DEY", some instr_dey, 2, 1⟩
  | 0x49 => ⟨"EOR", some (instr_eor addr_immediate), 2, 2⟩
  | 0x45 => ⟨"EOR", some (instr_eor addr_zero_page), 3, 2⟩
  | 0x55 => ⟨"EOR", some (instr_eor addr_zero_page_x), 4, 2⟩
  | 0x4D => ⟨"EOR", some (instr_eor addr_absolute), 4, 3⟩
  | 0x5D => ⟨"EOR", some (instr_eor addr_absolute_x), 4, 3⟩
  | 0x59 => ⟨"EOR", some (instr_eor addr_absolute_y), 4, 3⟩
  | 0x41 => ⟨"EOR", some (instr_eor addr_indirect_x), 6, 2⟩
  | 0x51 => ⟨"EOR", some (instr_eor addr_indirect_y), 5, 2⟩
  | 0xE6 => ⟨"INC", some (instr_inc addr_zero_page), 5, 2⟩
  | 0xF6 => ⟨"INC", some (instr_inc addr_zero_page_x), 5, 2⟩
  | 0xEE => ⟨"INC", some (instr_inc addr_absolute), 7, 3⟩
  | 0xFE => ⟨"INC", some (instr_inc addr_absolute_x), 7, 3⟩
  | 0xE8 => ⟨"INX", some instr_inx, 2, 1⟩
  | 0xC8 => ⟨"INY", some instr_iny, 2, 1⟩
  | 0x4C => ⟨"JMP", some (instr_jmp addr_absolute), 3, 3⟩
  | 0x6C => ⟨"JMP", some (instr_jmp addr_indirect), 5, 3⟩
  | 0x20 => ⟨"JSR", some (instr_jsr addr_absolute), 6, 3⟩
  | 0xA9 => ⟨"LDA", some (instr_lda addr_immediate), 2, 2⟩
  | 0xA5 => ⟨"LDA", some (instr_lda addr_zero_page), 3, 2⟩
  | 0xB5 => ⟨"LDA", some (instr_lda addr_zero_page_x), 4, 2⟩
  | 0xAD => ⟨"LDA", some (instr_lda addr_absolute), 4, 3⟩
  | 0xBD => ⟨"LDA", some (instr_lda addr_absolute_x), 4, 3⟩
  | 0xB9 => ⟨"LDA", some (instr_lda addr_absolute_y), 4, 3⟩
  | 0xA1 => ⟨"LDA", some (instr_lda addr_indirect_x), 6, 2⟩
  | 0xB1 => ⟨"LDA", some (instr_lda addr_indirect_y), 5, 2⟩
  | 0xA2 => ⟨"LDX", some (instr_ldx addr_immediate), 2, 2⟩
  | 0xA6 => ⟨"LDX", some (instr_ldx addr_zero_page), 3, 2⟩
  | 0xB6 => ⟨"LDX", some (instr_ldx addr_zero_page_y), 4, 2⟩
  | 0xAE => ⟨"LDX", some (instr_ldx addr_absolute), 4, 3⟩
  | 0xBE => ⟨"LDX", some (instr_ldx addr_absolute_y), 4, 3⟩
  | 0xA0 => ⟨"LDY", some (instr_ldy addr_immediate), 2, 2⟩
  | 0xA4 => ⟨"LDY", some (instr_ldy addr_zero_page), 3, 2⟩
  | 0xB4 => ⟨"LDY", some (instr_ldy addr_zero_page_x), 4, 2⟩
  | 0xAC => ⟨"LDY", some (instr_ldy addr_absolute), 4, 3⟩
  | 0xBC => ⟨"LDY", some (instr_ldy addr_absolute_x), 4, 3⟩
  | 0x4A => ⟨"LSR", some instr_lsr_accumulator, 2, 1⟩
  | 0x46 => ⟨"LSR", some (instr_lsr addr_zero_page), 5, 2⟩
  | 0x56 => ⟨"LSR", some (instr_lsr addr_zero_page_x), 6, 2⟩
  | 0x4E => ⟨"LSR", some (instr_lsr addr_absolute), 7, 3⟩
  | 0x5E => ⟨"LSR", some (instr_lsr addr_absolute_x), 7, 3⟩
  | 0xEA => ⟨"NOP", some instr_nop, 2, 1⟩
  | 0x09 => ⟨"ORA", some (instr_ora addr_immediate), 2, 2⟩
  | 0x05 => ⟨"ORA", some (instr_ora addr_zero_page), 3, 2⟩
  | 0x15 => ⟨"ORA", some (instr_ora addr_zero_page_x), 4, 2⟩
  | 0x0D => ⟨"ORA", some (instr_ora addr_absolute), 4, 3⟩
  | 0x1D => ⟨"ORA", some (instr_ora addr_absolute_x), 4, 3⟩
  | 0x19 => ⟨"ORA", some (instr_ora addr_absolute_y), 4, 3⟩
  | 0x01 => ⟨"ORA", some (instr_ora addr_indirect_x), 6, 2⟩
  | 0x11 => ⟨"ORA", some (instr_ora addr_indirect_y), 5, 2⟩
  | 0x48 => ⟨"PHA", some instr_pha, 3, 1⟩
  | 0x08 => ⟨"PHP", some instr_php, 3, 1⟩
  | 0x68 => ⟨"PLA", some instr_pla, 4, 1⟩
  | 0x28 => ⟨"PLP", some instr_plp, 4, 1⟩
  | 0x2A => ⟨"ROL", some instr_rol_accumulator, 2, 1⟩
  | 0x26 => ⟨"ROL", some (instr_rol addr_zero_page), 5, 2⟩
  | 0x36 => ⟨"ROL", some (instr_rol addr_zero_page_x), 6, 2⟩
  | 0x2E => ⟨"ROL", some (instr_rol addr_absolute), 7, 3⟩
  | 0x3E => ⟨"ROL", some (instr_rol addr_absolute_x), 7, 3⟩
  | 0x6A => ⟨"ROR", some instr_ror_accumulator, 2, 1⟩
  | 0x66 => ⟨"ROR", some (instr_ror addr_zero_page), 5, 2⟩
  | 0x76 => ⟨"ROR", some (instr_ror addr_zero_page_x), 6, 2⟩
  | 0x6E => ⟨"ROR", some (instr_ror addr_absolute), 7, 3⟩
  | 0x7E => ⟨"ROR", some (instr_ror addr_absolute_x), 7, 3⟩
  | 0x40 => ⟨"RTI", some instr_rti, 6, 1⟩
  | 0x60 => ⟨"RTS", some instr_rts, 6, 1⟩
  | 0xE9 => ⟨"SBC", some (instr_sbc addr_immediate), 2, 2⟩
  | 0xEB => ⟨"SBC", some (instr_sbc addr_immediate), 2, 2⟩
  | 0xE5 => ⟨"SBC", some (instr_sbc addr_zero_page), 3, 2⟩
  | 0xF5 => ⟨"SBC", some (instr_sbc addr_zero_page_x), 3, 2⟩
  | 0xED => ⟨"SBC", some (instr_sbc addr_absolute), 4, 3⟩
  | 0xFD => ⟨"SBC", some (instr_sbc addr_absolute_x), 4, 3⟩
  | 0xF9 => ⟨"SBC", some (instr_sbc addr_absolute_y), 4, 3⟩
  | 0xE1 => ⟨"SBC", some (instr_sbc addr_indirect_x), 6, 2⟩
  | 0xF1 => ⟨"SBC", some (instr_sbc addr_indirect_y), 5, 2⟩
  | 0x38 => ⟨"SEC", some instr_sec, 2, 1⟩
  | 0xF8 => ⟨"SED", some instr_sed, 2, 1⟩
  | 0x78 => ⟨"SEI", some instr_sei, 2, 1⟩
  | 0x85 => ⟨"STA", some (instr_sta addr_zero_page), 3, 2⟩
  | 0x95 => ⟨"STA", some (instr_sta addr_zero_page_x), 4, 2⟩
  | 0x8D => ⟨"STA", some (instr_sta addr_absolute), 4, 3⟩
  | 0x9D => ⟨"STA", some (instr_sta addr_absolute_x), 5, 3⟩
  | 0x99 => ⟨"STA", some (instr_sta addr_absolute_y), 5, 3⟩
  | 0x81 => ⟨"STA", some (instr_sta addr_indirect_x), 6, 2⟩
  | 0x91 => ⟨"STA", some (instr_sta addr_indirect_y), 6, 2⟩
  | 0x86 => ⟨"STX", some (instr_stx addr_zero_page), 3, 2⟩
  | 0x96 => ⟨"STX", some (instr_stx addr_zero_page_y), 4, 2⟩
  | 0x8E => ⟨"STX", some (instr_stx addr_absolute), 4, 3⟩
  | 0x84 => ⟨"STY", some (instr_sty addr_zero_page), 3, 2⟩
  | 0x94 => ⟨"STY", some (instr_sty addr_zero_page_x), 4, 2⟩
  | 0x8C => ⟨"STY", some (instr_sty addr_absolute), 4, 3⟩
  | 0xAA => ⟨"TAX", some instr_tax, 2, 1⟩
  | 0xA8 => ⟨"TAY", some instr_tay, 2, 1⟩
  | 0xBA => ⟨"TSX", some instr_tsx, 2, 1⟩
  | 0x8A => ⟨"TXA", some instr_txa, 2, 1⟩
  | 0x9A => ⟨"TXS", some instr_txs, 2, 1⟩
  | 0x98 => ⟨"TYA", some instr_tya, 2, 1⟩
  | _ => undefined_opcode

/-! ## Interrupt handling, clock pacing and the step
(`cpu_execute_instruction` in `cpu_6502.c`, `clock_wait_next_cycle` in
`cpu_clock.c`) -/

/-- `clock_wait_next_cycle`: sleeping against the wall clock is not
modelled; the state effect is that the cycle count goes up by one (the
`elapsed_time` bookkeeping is wall-clock-derived and not modelled). -/
def clock_wait_next_cycle (s : Machine) : Machine :=
  { s with cycle_count := s.cycle_count + 1 }

/-- The body of the `if (handle_nmi || handle_irq)` block in
`cpu_execute_instruction`: push `PC` and `P`, assign the `I` flag, load
`PC` from the NMI or IRQ/BRK vector, and add 7 cycles. -/
def service_interrupt (s : Machine) (handle_nmi handle_irq : Bool) : Machine :=
  let s2 := push_word s s.reg.PC
  let s3 := push_byte s2 s2.reg.P
  let s4 : Machine := { s3 with reg := { s3.reg with P := set_flag s3.reg.P FLAG_INTERRUPT handle_irq } }
  let s5 :=
    if handle_nmi then
      let rl := cpu_read s4 0xFFFA
      let rh := cpu_read rl.2 0xFFFB
      { rh.2 with reg := { rh.2.reg with PC := rl.1 ||| (rh.1 <<< 8) } }
    else
      let rl := cpu_read s4 0xFFFE
      let rh := cpu_read rl.2 0xFFFF
      { rh.2 with reg := { rh.2.reg with PC := rl.1 ||| (rh.1 <<< 8) } }
  { s5 with cycle_count := s5.cycle_count + 7 }

/-- The interrupt-handling block at the top of
`cpu_execute_instruction`: sample the latches (IRQ only when the `I`
flag is clear), clear the latches being serviced, and service via
`service_interrupt` when either fired. -/
def interrupt_phase (s : Machine) : Machine :=
  let handle_nmi := s.NMI_pending
  let handle_irq := s.IRQ_pending && !(get_flag s.reg.P FLAG_INTERRUPT)
  let s1 : Machine :=
    { s with NMI_pending := if handle_nmi then false else s.NMI_pending
             IRQ_pending := if handle_irq then false else s.IRQ_pending }
  if handle_nmi || handle_irq then
    service_interrupt s1 handle_nmi handle_irq
  else s1

inductive CpuStatus where
  | CPU_SUCCESS
  | CPU_ERROR_INVALID_OPCODE
deriving DecidableEq

/-- `cpu_execute_instruction`: interrupt phase, clock wait, opcode
fetch, table dispatch.  The pause handshake, debug printing and the
breakpoint check (which only prints) have no effect on the modelled
state and are omitted. -/
def cpu_execute_instruction (s : Machine) : CpuStatus × Machine :=
  let s1 := interrupt_phase s
  let s2 := clock_wait_next_cycle s1
  let r := fetch_byte s2
  let op := opcode_table (r.1 % 256)
  match op.execute with
  | some f => (CpuStatus.CPU_SUCCESS, f r.2)
  | none => (CpuStatus.CPU_ERROR_INVALID_OPCODE, r.2)

/-- `cpu_reset`: zero the general registers, `SP = 0xFD`, `P = 0x34`,
load `PC` from the reset vector at `0xFFFC/0xFFFD`, zero the cycle
count, clear both interrupt latches (the pause handshake is omitted). -/
def cpu_reset (s : Machine) : Machine :=
  let s1 : Machine :=
    { s with reg := { s.reg with A := 0x00, X := 0x00, Y := 0x00, SP := 0xFD, P := 0x34 } }
  let rl := cpu_read s1 0xFFFC
  let rh := cpu_read rl.2 0xFFFD
  { rh.2 with
    reg := { rh.2.reg with PC := (rh.1 <<< 8) ||| rl.1 }
    cycle_count := 0
    IRQ_pending := false
    NMI_pending := false }

/-- `cpu_inject_IRQ`: set the IRQ latch. -/
def cpu_inject_IRQ (s : Machine) : Machine := { s with IRQ_pending := true }

/-- `cpu_inject_NMI`: set the NMI latch. -/
def cpu_inject_NMI (s : Machine) : Machine := { s with NMI_pending := true }

/-! ## General helper lemmas -/

/-- Little-endian byte combination as written in the C source equals the
arithmetic value `lo + 256 * hi`. -/
theorem lor_shift8 (lo hi : Nat) (h : lo < 256) :
    lo ||| (hi <<< 8) = lo + 256 * hi := by
  have hmod : (lo + 256 * hi) % 256 = lo := by omega
  have hdiv : (lo + 256 * hi) / 256 = hi := by omega
  apply Nat.eq_of_testBit_eq
  intro i
  rcases Nat.lt_or_ge i 8 with h8 | h8
  · have h1 : (hi <<< 8).testBit i = false := by
      simp only [Nat.testBit_shiftLeft]
      have hn : ¬ (8 ≤ i) := by omega
      simp [hn]
    have h2 : (lo + 256 * hi).testBit i = lo.testBit i := by
      have hm := Nat.testBit_mod_two_pow (lo + 256 * hi) 8 i
      rw [show ((2 : Nat) ^ 8) = 256 by norm_num] at hm
      rw [hmod] at hm
      simp only [h8, decide_True, Bool.true_and] at hm
      exact hm.symm
    simp [Nat.testBit_lor, h1, h2]
  · have h1 : lo.testBit i = false := by
      apply Nat.testBit_lt_two_pow
      calc lo < 256 := h
        _ = 2 ^ 8 := by norm_num
        _ ≤ 2 ^ i := Nat.pow_le_pow_right (by norm_num) h8
    have h2 : (hi <<< 8).testBit i = hi.testBit (i - 8) := by
      simp only [Nat.testBit_shiftLeft]
      simp [h8]
    have h3 : (lo + 256 * hi).testBit i = hi.testBit (i - 8) := by
      have hs := Nat.testBit_shiftRight (x := lo + 256 * hi) (i := 8) (j := i - 8)
      rw [Nat.shiftRight_eq_div_pow] at hs
      rw [show ((2 : Nat) ^ 8) = 256 by norm_num] at hs
      rw [hdiv] at hs
      rw [show 8 + (i - 8) = i by omega] at hs
      exact hs.symm
    simp [Nat.testBit_lor, h1, h2, h3]

/-- `a &&& 0xFFFF` is reduction modulo `2^16`. -/
theorem land_ffff (a : Nat) : a &&& 0xFFFF = a % 65536 := by
  have h := Nat.and_pow_two_sub_one_eq_mod a 16
  norm_num at h
  exact h

/-- `a &&& 0xFF` is reduction modulo `2^8`. -/
theorem land_ff (a : Nat) : a &&& 0xFF = a % 256 := by
  have h := Nat.and_pow_two_sub_one_eq_mod a 8
  norm_num at h
  exact h

/-! ## Queue lemmas -/

theorem queueContents_enqueue (q : Queue) (b : Nat) (hinv : QueueInv q)
    (hc : q.count < QUEUE_SIZE) :
    (queue_enqueue q b).1 = true ∧
    queueContents (queue_enqueue q b).2 = queueContents q ++ [b % 256] ∧
    QueueInv (queue_enqueue q b).2 ∧
    (queue_enqueue q b).2.count = q.count + 1 := by
  obtain ⟨htail, hcount⟩ := hinv
  have hne : q.count ≠ QUEUE_SIZE := Nat.ne_of_lt hc
  unfold queue_enqueue
  simp only [hne, if_false]
  refine ⟨by trivial, ?_, ?_, by trivial⟩
  · unfold queueContents
    simp only
    rw [List.range_succ, List.map_append]
    congr 1
    · apply List.map_congr_left
      intro i hi
      have hilt : i < q.count := List.mem_range.mp hi
      have hneq : (q.head + i) % QUEUE_SIZE ≠ q.tail := by
        rw [htail]
        unfold QUEUE_SIZE at *
        omega
      simp [hneq]
    · have heq : (q.head + q.count) % QUEUE_SIZE = q.tail := htail.symm
      simp [heq]
      try omega
  · constructor
    · simp only
      rw [htail]
      unfold QUEUE_SIZE
      omega
    · simp only
      unfold QUEUE_SIZE at *
      omega

theorem queueContents_enqueue_list (l : List Nat) (q : Queue) (hinv : QueueInv q)
    (hroom : q.count + l.length ≤ QUEUE_SIZE) (hb : ∀ c ∈ l, c < 256) :
    queueContents (enqueue_list q l) = queueContents q ++ l ∧
    QueueInv (enqueue_list q l) ∧
    (enqueue_list q l).count = q.count + l.length := by
  induction l generalizing q with
  | nil => simp [enqueue_list]; exact hinv
  | cons c cs ih =>
    have hc : q.count < QUEUE_SIZE := by
      have := hroom; simp at this; omega
    obtain ⟨-, hcont, hinv1, hcount1⟩ := queueContents_enqueue q c hinv hc
    have hcb : c % 256 = c := Nat.mod_eq_of_lt (hb c (by simp))
    have hroom1 : (queue_enqueue q c).2.count + cs.length ≤ QUEUE_SIZE := by
      rw [hcount1]; simp at hroom; omega
    obtain ⟨ih1, ih2, ih3⟩ := ih (queue_enqueue q c).2 hinv1 hroom1
      (fun x hx => hb x (by simp [hx]))
    refine ⟨?_, ih2, ?_⟩
    · show queueContents (enqueue_list (queue_enqueue q c).2 cs) = _
      rw [ih1, hcont, hcb]
      simp
    · show (enqueue_list (queue_enqueue q c).2 cs).count = _
      rw [ih3, hcount1]
      simp
      omega

/-! ## Claim theorems -/

/-- C9: on a full queue (`count = capacity = 1024`) `queue_enqueue`
returns failure and leaves the queue entirely unchanged; on a non-full
queue it returns success, appends the byte at the tail and increments
`count` by one. -/
theorem C9_enqueue_full_rejects_nonfull_appends (q : Queue) (b : Nat)
    (hinv : QueueInv q) (hb : b < 256) :
    (q.count = 1024 → queue_enqueue q b = (false, q)) ∧
    (q.count < 1024 →
      (queue_enqueue q b).1 = true ∧
      queueContents (queue_enqueue q b).2 = queueContents q ++ [b] ∧
      (queue_enqueue q b).2.count = q.count + 1) := by
  constructor
  · intro hfull
    unfold queue_enqueue
    simp [hfull, QUEUE_SIZE]
  · intro hlt
    obtain ⟨h1, h2, _, h4⟩ := queueContents_enqueue q b hinv hlt
    exact ⟨h1, by rw [h2, Nat.mod_eq_of_lt hb], h4⟩

/-- Closed witness for C9 at a full queue and at an empty queue. -/
theorem C9_enqueue_witness :
    queue_enqueue ⟨fun _ => 0, 0, 0, 1024⟩ 7 = (false, ⟨fun _ => 0, 0, 0, 1024⟩) ∧
    (queue_enqueue queue_init 7).2.count = 0 + 1 :=
  ⟨(C9_enqueue_full_rejects_nonfull_appends ⟨fun _ => 0, 0, 0, 1024⟩ 7
      (by constructor <;> decide) (by decide)).1 rfl,
   (C9_enqueue_full_rejects_nonfull_appends queue_init 7
      (by constructor <;> decide) (by decide)).2 (by decide) |>.2.2⟩

/-- C6: a guest write to `0xD012` enqueues the byte on the output queue,
leaves every byte of the stored RAM unchanged, and a subsequent guest
read of `0xD012` returns the same value as before the write. -/
theorem C6_output_write_no_memory_change (s : Machine) (b : Nat)
    (hinv : QueueInv s.output_queue) (hroom : s.output_queue.count < 1024)
    (hb : b < 256) :
    (∀ a, (cpu_write s 0xD012 b).ram a = s.ram a) ∧
    queueContents (cpu_write s 0xD012 b).output_queue =
      queueContents s.output_queue ++ [b] ∧
    (cpu_read (cpu_write s 0xD012 b) 0xD012).1 = (cpu_read s 0xD012).1 := by
  have hw : cpu_write s 0xD012 b =
      { s with output_queue := (queue_enqueue s.output_queue b).2 } := by
    unfold cpu_write OUTPUT_ADDR
    simp
  obtain ⟨-, hcont, -, -⟩ := queueContents_enqueue s.output_queue b hinv hroom
  refine ⟨?_, ?_, ?_⟩
  · intro a; rw [hw]
  · rw [hw]
    simpa [Nat.mod_eq_of_lt hb] using hcont
  · rw [hw]
    unfold cpu_read INPUT_ADDR
    simp [bus_read, monitored_ram_read]

/-- Closed witness for C6. -/
theorem C6_output_write_witness :
    (cpu_write
      { reg := ⟨0, 0, 0, 0, 0, 0⟩, ram := fun _ => 9, input_queue := queue_init
        output_queue := queue_init, IRQ_pending := false, NMI_pending := false
        cycle_count := 0 } 0xD012 0x41).ram 0xD012 = 9 := by
  have h := C6_output_write_no_memory_change
    { reg := ⟨0, 0, 0, 0, 0, 0⟩, ram := fun _ => 9, input_queue := queue_init
      output_queue := queue_init, IRQ_pending := false, NMI_pending := false
      cycle_count := 0 } 0x41 (by constructor <;> decide) (by decide) (by decide)
  exact h.1 0xD012

/-- C7: a write of `b` to `0x6001` stores `b` in the backing RAM and
enqueues exactly the 29-byte functional-test message — PASSED when
`b = 0`, FAILED otherwise — one byte per queue element in order. -/
theorem C7_test_status_message (ram : Nat → Nat) (q : Queue) (b : Nat)
    (hb : b < 256) (hinv : QueueInv q) (hroom : q.count + 29 ≤ 1024) :
    (monitored_ram_write ram q 0x6001 b).1 0x6001 = b ∧
    queueContents (monitored_ram_write ram q 0x6001 b).2 =
      queueContents q ++
        (if b = 0 then test_passed_message else test_failed_message) ∧
    test_passed_message.length = 29 ∧ test_failed_message.length = 29 := by
  have hb256 : b % 256 = b := Nat.mod_eq_of_lt hb
  refine ⟨?_, ?_, by decide, by decide⟩
  · unfold monitored_ram_write
    simp [hb256, show (0x6001 : Nat) &&& 0xFFFF = 0x6001 from by decide]
  · unfold monitored_ram_write MONITORED_ADDR_OUTPUT_CHAR
      MONITORED_ADDR_TEST_STATUS
    simp only [show (0x6001 : Nat) ≠ 0x6000 by decide, if_false, if_true,
      hb256]
    rcases Nat.eq_zero_or_pos b with hz | hp
    · subst hz
      have hlen : q.count + test_passed_message.length ≤ QUEUE_SIZE := by
        have : test_passed_message.length = 29 := by decide
        unfold QUEUE_SIZE; omega
      have := queueContents_enqueue_list test_passed_message q hinv hlen
        (by decide)
      simp [this.1]
    · have hnz : b ≠ 0 := Nat.pos_iff_ne_zero.mp hp
      have hlen : q.count + test_failed_message.length ≤ QUEUE_SIZE := by
        have : test_failed_message.length = 29 := by decide
        unfold QUEUE_SIZE; omega
      have := queueContents_enqueue_list test_failed_message q hinv hlen
        (by decide)
      simp [hnz, this.1]

/-- Closed witness for C7. -/
theorem C7_test_status_witness :
    (monitored_ram_write (fun _ => 0) queue_init 0x6001 0).1 0x6001 = 0 ∧
    queueContents (monitored_ram_write (fun _ => 0) queue_init 0x6001 0).2 =
      test_passed_message := by
  have h := C7_test_status_message (fun _ => 0) queue_init 0
    (by decide) (by constructor <;> decide) (by decide)
  refine ⟨h.1, ?_⟩
  have h2 := h.2.1
  simpa [queue_init, queueContents] using h2

/-! ## Concrete machines used as test inputs -/

/-- A machine with a reset vector of `0x8000` and otherwise zero memory. -/
def resetMach : Machine :=
  { reg := ⟨0x11, 0x22, 0x33, 0x1234, 0x00, 0xFF⟩
    ram := fun a => if a = 0xFFFC then 0x00 else if a = 0xFFFD then 0x80 else 0
    input_queue := queue_init
    output_queue := queue_init
    IRQ_pending := false
    NMI_pending := false
    cycle_count := 99 }

/-- A machine about to execute `SBC #$01` with `D` and `C` set and
`A = 0x10`. -/
def sbcDecMach : Machine :=
  { reg := ⟨0x10, 0, 0, 0x9000, 0xFD, 0x09⟩
    ram := fun a => if a = 0x9000 then 0x01 else 0
    input_queue := queue_init
    output_queue := queue_init
    IRQ_pending := false
    NMI_pending := false
    cycle_count := 0 }

/-! ## Pure-access helper lemmas -/

/-- A read of any address other than `INPUT_ADDR` is a pure load through
the bus. -/
theorem cpu_read_pure (s : Machine) (addr : Nat) (h : addr ≠ 0xD011) :
    cpu_read s addr = (s.ram (addr % 65536) % 256, s) := by
  unfold cpu_read INPUT_ADDR bus_read monitored_ram_read
  simp [h, land_ffff]

/-- A write to an address that is neither `OUTPUT_ADDR` nor one of the
monitored hook addresses is a plain RAM store. -/
theorem cpu_write_plain (s : Machine) (addr v : Nat) (h1 : addr ≠ 0xD012)
    (h2 : addr ≠ 0x6000) (h3 : addr ≠ 0x6001) (h4 : addr ≠ 0x6002) :
    cpu_write s addr v =
      { s with ram := fun i => if i = addr % 65536 then v % 256 else s.ram i } := by
  unfold cpu_write bus_write monitored_ram_write OUTPUT_ADDR
    MONITORED_ADDR_OUTPUT_CHAR MONITORED_ADDR_TEST_STATUS
    MONITORED_ADDR_ADDITIONAL_STATUS
  simp [h1, h2, h3, h4, land_ffff]

/-- `push_byte` on a stack-page address is a plain RAM store plus the
`SP` decrement. -/
theorem push_byte_plain (s : Machine) (v : Nat) (hSP : s.reg.SP < 256) :
    push_byte s v =
      { s with
        ram := fun i => if i = 0x0100 + s.reg.SP then v % 256 else s.ram i
        reg := { s.reg with SP := (s.reg.SP + 255) % 256 } } := by
  unfold push_byte
  rw [cpu_write_plain s (0x0100 + s.reg.SP) v (by omega) (by omega) (by omega)
    (by omega)]
  have hm : (0x0100 + s.reg.SP) % 65536 = 0x0100 + s.reg.SP := by omega
  rw [hm]

/-! ## C1 -/

/-- C1 counterexample: at a concrete memory state, `cpu_reset` sets
`P = 0x34`, not `0x24` as the claim states. -/
theorem C1_reset_counterexample :
    ¬ ((cpu_reset resetMach).reg.P = 0x24 ∧ (cpu_reset resetMach).reg.PC = 0x8000) := by
  decide

/-- C1 amended: after `cpu_reset`, `PC` holds the little-endian reset
vector from `0xFFFC/0xFFFD`, `SP = 0xFD`, `P = 0x34` (I, U and B set —
not `0x24`), `A = X = Y = 0`, the cycle counter is 0, and both latches
are clear. -/
theorem C1_reset_state (s : Machine) :
    (cpu_reset s).reg.PC = s.ram 0xFFFC % 256 + 256 * (s.ram 0xFFFD % 256) ∧
    (cpu_reset s).reg.SP = 0xFD ∧
    (cpu_reset s).reg.P = 0x34 ∧
    (cpu_reset s).reg.A = 0 ∧
    (cpu_reset s).reg.X = 0 ∧
    (cpu_reset s).reg.Y = 0 ∧
    (cpu_reset s).cycle_count = 0 ∧
    (cpu_reset s).IRQ_pending = false ∧
    (cpu_reset s).NMI_pending = false := by
  unfold cpu_reset
  simp only [cpu_read_pure _ 0xFFFC (by decide), cpu_read_pure _ 0xFFFD (by decide)]
  refine ⟨?_, by trivial, by trivial, by trivial, by trivial, by trivial, by trivial, by trivial, by trivial⟩
  show (s.ram (0xFFFD % 65536) % 256) <<< 8 ||| s.ram (0xFFFC % 65536) % 256 = _
  rw [Nat.lor_comm]
  rw [lor_shift8 _ _ (Nat.mod_lt _ (by norm_num))]

/-! ## C4 -/

/-- C4: with the `D` flag set, `instr_sbc` performs no subtraction at
all — the C source's decimal branch is empty ("the BCD mode
implementation is omitted") — so `A` and `P` are left unchanged instead
of holding the decimal difference `0x09` and its flags. -/
theorem C4_sbc_decimal_omitted :
    (instr_sbc addr_immediate sbcDecMach).reg.A = 0x10 ∧
    (instr_sbc addr_immediate sbcDecMach).reg.P = 0x09 ∧
    (instr_sbc addr_immediate sbcDecMach).reg.PC = 0x9001 ∧
    ¬ ((instr_sbc addr_immediate sbcDecMach).reg.A = 0x09) := by
  decide

/-- `push_word` on a stack with at least two free slots is two plain RAM
stores (high byte at `SP`, low byte at `SP - 1`) plus the `SP`
decrement by two. -/
theorem push_word_plain (s : Machine) (w : Nat) (h2 : 2 ≤ s.reg.SP)
    (hSP : s.reg.SP < 256) :
    push_word s w =
      { s with
        ram := fun i =>
          if i = 0x0100 + s.reg.SP - 1 then (w &&& 0xFF) % 256
          else if i = 0x0100 + s.reg.SP then ((w >>> 8) &&& 0xFF) % 256
          else s.ram i
        reg := { s.reg with SP := s.reg.SP - 2 } } := by
  unfold push_word
  rw [push_byte_plain s _ hSP]
  rw [push_byte_plain _ _ (by simp only; omega)]
  simp only
  have e1 : (s.reg.SP + 255) % 256 = s.reg.SP - 1 := by omega
  have e2 : (s.reg.SP - 1 + 255) % 256 = s.reg.SP - 2 := by omega
  rw [e1, e2]
  congr 1
  funext i
  have e3 : 0x0100 + (s.reg.SP - 1) = 0x0100 + s.reg.SP - 1 := by omega
  rw [e3]

/-! ## C5 -/

/-- A machine about to run the body of `BRK` (`PC` already past the
opcode), with `P = 0x00` and an IRQ/BRK vector of `0x9000`. -/
def brkMach : Machine :=
  { reg := ⟨0, 0, 0, 0x8001, 0xFD, 0x00⟩
    ram := fun a => if a = 0xFFFE then 0x00 else if a = 0xFFFF then 0x90 else 0
    input_queue := queue_init
    output_queue := queue_init
    IRQ_pending := false
    NMI_pending := false
    cycle_count := 0 }

/-- C5 counterexample: with `P = 0x00`, `BRK` pushes the status byte
`0x10` (B set, U untouched), not `P | 0x30 = 0x30` as the claim
states. -/
theorem C5_brk_counterexample :
    (instr_brk brkMach).ram 0x01FB = 0x10 ∧
    ¬ ((instr_brk brkMach).ram 0x01FB = brkMach.reg.P ||| 0x30) := by
  decide

/-- C5 amended: `BRK` increments `PC` by one past the padding byte,
pushes that `PC` high byte then low byte, pushes the byte `P | 0x10`
(B set in the pushed byte; the U bit is not forced), leaves the B flag
set in the live status register, sets the I flag, and loads `PC` from
the little-endian vector at `0xFFFE/0xFFFF`. -/
theorem C5_brk_state (s : Machine) (h2 : 3 ≤ s.reg.SP) (hSP : s.reg.SP < 256)
    (hP : s.reg.P < 256) :
    (instr_brk s).reg.PC = s.ram 0xFFFE % 256 + 256 * (s.ram 0xFFFF % 256) ∧
    (instr_brk s).ram (0x0100 + s.reg.SP) = ((s.reg.PC + 1) % 65536) / 256 ∧
    (instr_brk s).ram (0x0100 + s.reg.SP - 1) = (s.reg.PC + 1) % 256 ∧
    (instr_brk s).ram (0x0100 + s.reg.SP - 2) = s.reg.P ||| 0x10 ∧
    get_flag (instr_brk s).reg.P FLAG_BREAK = true ∧
    get_flag (instr_brk s).reg.P FLAG_INTERRUPT = true ∧
    (instr_brk s).reg.SP = s.reg.SP - 3 := by
  have hbrk : instr_brk s =
      { s with
        ram := fun i =>
          if i = 0x0100 + s.reg.SP - 2 then (s.reg.P ||| 0x10) % 256
          else if i = 0x0100 + s.reg.SP - 1 then ((s.reg.PC + 1) % 65536 &&& 0xFF) % 256
          else if i = 0x0100 + s.reg.SP then ((((s.reg.PC + 1) % 65536) >>> 8) &&& 0xFF) % 256
          else s.ram i
        reg := { s.reg with
          PC := s.ram 0xFFFE % 256 + 256 * (s.ram 0xFFFF % 256)
          SP := s.reg.SP - 3
          P := (s.reg.P ||| (1 <<< 4)) ||| (1 <<< 2) } } := by
    simp only [instr_brk]
    rw [push_word_plain _ _ (by simp only; omega) (by simp only; omega)]
    simp only
    unfold set_flag FLAG_BREAK FLAG_INTERRUPT
    simp only [if_true]
    rw [push_byte_plain _ _ (by show s.reg.SP - 2 < 256; omega)]
    simp only
    rw [cpu_read_pure _ 0xFFFE (by decide), cpu_read_pure _ 0xFFFF (by decide)]
    simp only
    have e1 : (s.reg.SP - 2 + 255) % 256 = s.reg.SP - 3 := by omega
    have e2 : 0x0100 + (s.reg.SP - 2) = 0x0100 + s.reg.SP - 2 := by omega
    rw [e1, e2]
    have hne1 : ¬ ((0xFFFE : Nat) % 65536 = 0x0100 + s.reg.SP - 2) := by omega
    have hne2 : ¬ ((0xFFFE : Nat) % 65536 = 0x0100 + s.reg.SP - 1) := by omega
    have hne3 : ¬ ((0xFFFE : Nat) % 65536 = 0x0100 + s.reg.SP) := by omega
    have hne4 : ¬ ((0xFFFF : Nat) % 65536 = 0x0100 + s.reg.SP - 2) := by omega
    have hne5 : ¬ ((0xFFFF : Nat) % 65536 = 0x0100 + s.reg.SP - 1) := by omega
    have hne6 : ¬ ((0xFFFF : Nat) % 65536 = 0x0100 + s.reg.SP) := by omega
    have hself : ((1 : Nat) <<< 4) ||| 16 = 16 := by decide
    have hor : (s.reg.P ||| (1 <<< 4)) ||| 16 = s.reg.P ||| 16 := by
      rw [Nat.lor_assoc, hself]
    have hPCeq : s.ram (0xFFFE % 65536) % 256 ||| (s.ram (0xFFFF % 65536) % 256) <<< 8 =
        s.ram 0xFFFE % 256 + 256 * (s.ram 0xFFFF % 256) := by
      rw [lor_shift8 _ _ (Nat.mod_lt _ (by norm_num))]
    simp only [hne1, hne2, hne3, hne4, hne5, hne6, if_false, hor, hPCeq]
  rw [hbrk]
  have hP16 : s.reg.P ||| 16 < 256 :=
    Nat.or_lt_two_pow (n := 8) hP (by norm_num)
  refine ⟨rfl, ?_, ?_, ?_, ?_, ?_, rfl⟩
  · have ha : ¬ (0x0100 + s.reg.SP = 0x0100 + s.reg.SP - 2) := by omega
    have hb : ¬ (0x0100 + s.reg.SP = 0x0100 + s.reg.SP - 1) := by omega
    simp only [ha, hb, if_false, if_true]
    rw [land_ff, Nat.shiftRight_eq_div_pow]
    norm_num
    omega
  · have ha : ¬ (0x0100 + s.reg.SP - 1 = 0x0100 + s.reg.SP - 2) := by omega
    simp only [ha, if_false, if_true]
    rw [land_ff]
    omega
  · simp only [if_true]
    exact Nat.mod_eq_of_lt hP16
  · unfold get_flag FLAG_BREAK
    simp [Nat.testBit_lor, show Nat.testBit 16 4 = true from by decide]
  · unfold get_flag FLAG_INTERRUPT
    simp [Nat.testBit_lor, show Nat.testBit 4 2 = true from by decide]

/-- Closed witness for C5's amended statement. -/
theorem C5_brk_witness :
    get_flag (instr_brk brkMach).reg.P FLAG_INTERRUPT = true ∧
    (instr_brk brkMach).reg.SP = brkMach.reg.SP - 3 :=
  ⟨(C5_brk_state brkMach (by decide) (by decide) (by decide)).2.2.2.2.2.1,
   (C5_brk_state brkMach (by decide) (by decide) (by decide)).2.2.2.2.2.2⟩

/-! ## Preservation of the IRQ latch by instruction execution

No addressing mode and no instruction procedure ever touches the
`IRQ_pending` latch; these lemmas make that uniform fact available for
the step-level deferral theorem of C10. -/

theorem irqp_cpu_read (s : Machine) (a : Nat) :
    (cpu_read s a).2.IRQ_pending = s.IRQ_pending := by
  unfold cpu_read
  split
  · rcases hq : queue_dequeue s.input_queue with ⟨o, q⟩
    cases o <;> simp [hq]
  · rfl

theorem irqp_cpu_write (s : Machine) (a v : Nat) :
    (cpu_write s a v).IRQ_pending = s.IRQ_pending := by
  unfold cpu_write bus_write
  split <;> rfl

theorem irqp_push_byte (s : Machine) (v : Nat) :
    (push_byte s v).IRQ_pending = s.IRQ_pending := by
  simp [push_byte, irqp_cpu_write]

theorem irqp_pull_byte (s : Machine) :
    (pull_byte s).2.IRQ_pending = s.IRQ_pending := by
  simp [pull_byte, irqp_cpu_read]

theorem irqp_push_word (s : Machine) (v : Nat) :
    (push_word s v).IRQ_pending = s.IRQ_pending := by
  simp [push_word, irqp_push_byte]

theorem irqp_pull_word (s : Machine) :
    (pull_word s).2.IRQ_pending = s.IRQ_pending := by
  simp [pull_word, irqp_pull_byte]

theorem irqp_fetch_byte (s : Machine) :
    (fetch_byte s).2.IRQ_pending = s.IRQ_pending := by
  simp [fetch_byte, irqp_cpu_read]

theorem irqp_fetch_word (s : Machine) :
    (fetch_word s).2.IRQ_pending = s.IRQ_pending := by
  simp [fetch_word, irqp_fetch_byte]

theorem irqp_addr_immediate (s : Machine) :
    ((addr_immediate s).2).IRQ_pending = s.IRQ_pending := by
  simp [addr_immediate, irqp_fetch_byte, irqp_fetch_word, irqp_cpu_read]

theorem irqp_addr_zero_page (s : Machine) :
    ((addr_zero_page s).2).IRQ_pending = s.IRQ_pending := by
  simp [addr_zero_page, irqp_fetch_byte, irqp_fetch_word, irqp_cpu_read]

theorem irqp_addr_zero_page_x (s : Machine) :
    ((addr_zero_page_x s).2).IRQ_pending = s.IRQ_pending := by
  simp [addr_zero_page_x, irqp_fetch_byte, irqp_fetch_word, irqp_cpu_read]

theorem irqp_addr_zero_page_y (s : Machine) :
    ((addr_zero_page_y s).2).IRQ_pending = s.IRQ_pending := by
  simp [addr_zero_page_y, irqp_fetch_byte, irqp_fetch_word, irqp_cpu_read]

theorem irqp_addr_absolute (s : Machine) :
    ((addr_absolute s).2).IRQ_pending = s.IRQ_pending := by
  simp [addr_absolute, irqp_fetch_byte, irqp_fetch_word, irqp_cpu_read]

theorem irqp_addr_absolute_x (s : Machine) :
    ((addr_absolute_x s).2).IRQ_pending = s.IRQ_pending := by
  simp [addr_absolute_x, irqp_fetch_byte, irqp_fetch_word, irqp_cpu_read]

theorem irqp_addr_absolute_y (s : Machine) :
    ((addr_absolute_y s).2).IRQ_pending = s.IRQ_pending := by
  simp [addr_absolute_y, irqp_fetch_byte, irqp_fetch_word, irqp_cpu_read]

theorem irqp_addr_indirect (s : Machine) :
    ((addr_indirect s).2).IRQ_pending = s.IRQ_pending := by
  simp [addr_indirect, irqp_fetch_byte, irqp_fetch_word, irqp_cpu_read]

theorem irqp_addr_indirect_x (s : Machine) :
    ((addr_indirect_x s).2).IRQ_pending = s.IRQ_pending := by
  simp [addr_indirect_x, irqp_fetch_byte, irqp_fetch_word, irqp_cpu_read]

theorem irqp_addr_indirect_y (s : Machine) :
    ((addr_indirect_y s).2).IRQ_pending = s.IRQ_pending := by
  simp [addr_indirect_y, irqp_fetch_byte, irqp_fetch_word, irqp_cpu_read]

theorem irqp_addr_relative (s : Machine) :
    ((addr_relative s).2).IRQ_pending = s.IRQ_pending := by
  simp [addr_relative, irqp_fetch_byte, irqp_fetch_word, irqp_cpu_read]

theorem irqp_instr_adc (m : AddrMode)
    (hm : ∀ u, ((m u).2).IRQ_pending = u.IRQ_pending) (s : Machine) :
    (instr_adc m s).IRQ_pending = s.IRQ_pending := by
  simp [instr_adc, branch_commit, apply_ite Machine.IRQ_pending, hm, irqp_cpu_read, irqp_cpu_write, irqp_push_byte, irqp_push_word, irqp_pull_byte, irqp_pull_word]

theorem irqp_instr_and (m : AddrMode)
    (hm : ∀ u, ((m u).2).IRQ_pending = u.IRQ_pending) (s : Machine) :
    (instr_and m s).IRQ_pending = s.IRQ_pending := by
  simp [instr_and, branch_commit, apply_ite Machine.IRQ_pending, hm, irqp_cpu_read, irqp_cpu_write, irqp_push_byte, irqp_push_word, irqp_pull_byte, irqp_pull_word]

theorem irqp_instr_asl (m : AddrMode)
    (hm : ∀ u, ((m u).2).IRQ_pending = u.IRQ_pending) (s : Machine) :
    (instr_asl m s).IRQ_pending = s.IRQ_pending := by
  simp [instr_asl, branch_commit, apply_ite Machine.IRQ_pending, hm, irqp_cpu_read, irqp_cpu_write, irqp_push_byte, irqp_push_word, irqp_pull_byte, irqp_pull_word]

theorem irqp_instr_bcc (m : AddrMode)
    (hm : ∀ u, ((m u).2).IRQ_pending = u.IRQ_pending) (s : Machine) :
    (instr_bcc m s).IRQ_pending = s.IRQ_pending := by
  simp [instr_bcc, branch_commit, apply_ite Machine.IRQ_pending, hm, irqp_cpu_read, irqp_cpu_write, irqp_push_byte, irqp_push_word, irqp_pull_byte, irqp_pull_word]

theorem irqp_instr_bcs (m : AddrMode)
    (hm : ∀ u, ((m u).2).IRQ_pending = u.IRQ_pending) (s : Machine) :
    (instr_bcs m s).IRQ_pending = s.IRQ_pending := by
  simp [instr_bcs, branch_commit, apply_ite Machine.IRQ_pending, hm, irqp_cpu_read, irqp_cpu_write, irqp_push_byte, irqp_push_word, irqp_pull_byte, irqp_pull_word]

theorem irqp_instr_beq (m : AddrMode)
    (hm : ∀ u, ((m u).2).IRQ_pending = u.IRQ_pending) (s : Machine) :
    (instr_beq m s).IRQ_pending = s.IRQ_pending := by
  simp [instr_beq, branch_commit, apply_ite Machine.IRQ_pending, hm, irqp_cpu_read, irqp_cpu_write, irqp_push_byte, irqp_push_word, irqp_pull_byte, irqp_pull_word]

theorem irqp_instr_bit (m : AddrMode)
    (hm : ∀ u, ((m u).2).IRQ_pending = u.IRQ_pending) (s : Machine) :
    (instr_bit m s).IRQ_pending = s.IRQ_pending := by
  simp [instr_bit, branch_commit, apply_ite Machine.IRQ_pending, hm, irqp_cpu_read, irqp_cpu_write, irqp_push_byte, irqp_push_word, irqp_pull_byte, irqp_pull_word]

theorem irqp_instr_bmi (m : AddrMode)
    (hm : ∀ u, ((m u).2).IRQ_pending = u.IRQ_pending) (s : Machine) :
    (instr_bmi m s).IRQ_pending = s.IRQ_pending := by
  simp [instr_bmi, branch_commit, apply_ite Machine.IRQ_pending, hm, irqp_cpu_read, irqp_cpu_write, irqp_push_byte, irqp_push_word, irqp_pull_byte, irqp_pull_word]

theorem irqp_instr_bne (m : AddrMode)
    (hm : ∀ u, ((m u).2).IRQ_pending = u.IRQ_pending) (s : Machine) :
    (instr_bne m s).IRQ_pending = s.IRQ_pending := by
  simp [instr_bne, branch_commit, apply_ite Machine.IRQ_pending, hm, irqp_cpu_read, irqp_cpu_write, irqp_push_byte, irqp_push_word, irqp_pull_byte, irqp_pull_word]

theorem irqp_instr_bpl (m : AddrMode)
    (hm : ∀ u, ((m u).2).IRQ_pending = u.IRQ_pending) (s : Machine) :
    (instr_bpl m s).IRQ_pending = s.IRQ_pending := by
  simp [instr_bpl, branch_commit, apply_ite Machine.IRQ_pending, hm, irqp_cpu_read, irqp_cpu_write, irqp_push_byte, irqp_push_word, irqp_pull_byte, irqp_pull_word]

theorem irqp_instr_bvc (m : AddrMode)
    (hm : ∀ u, ((m u).2).IRQ_pending = u.IRQ_pending) (s : Machine) :
    (instr_bvc m s).IRQ_pending = s.IRQ_pending := by
  simp [instr_bvc, branch_commit, apply_ite Machine.IRQ_pending, hm, irqp_cpu_read, irqp_cpu_write, irqp_push_byte, irqp_push_word, irqp_pull_byte, irqp_pull_word]

theorem irqp_instr_bvs (m : AddrMode)
    (hm : ∀ u, ((m u).2).IRQ_pending = u.IRQ_pending) (s : Machine) :
    (instr_bvs m s).IRQ_pending = s.IRQ_pending := by
  simp [instr_bvs, branch_commit, apply_ite Machine.IRQ_pending, hm, irqp_cpu_read, irqp_cpu_write, irqp_push_byte, irqp_push_word, irqp_pull_byte, irqp_pull_word]

theorem irqp_instr_cmp (m : AddrMode)
    (hm : ∀ u, ((m u).2).IRQ_pending = u.IRQ_pending) (s : Machine) :
    (instr_cmp m s).IRQ_pending = s.IRQ_pending := by
  simp [instr_cmp, branch_commit, apply_ite Machine.IRQ_pending, hm, irqp_cpu_read, irqp_cpu_write, irqp_push_byte, irqp_push_word, irqp_pull_byte, irqp_pull_word]

theorem irqp_instr_cpx (m : AddrMode)
    (hm : ∀ u, ((m u).2).IRQ_pending = u.IRQ_pending) (s : Machine) :
    (instr_cpx m s).IRQ_pending = s.IRQ_pending := by
  simp [instr_cpx, branch_commit, apply_ite Machine.IRQ_pending, hm, irqp_cpu_read, irqp_cpu_write, irqp_push_byte, irqp_push_word, irqp_pull_byte, irqp_pull_word]

theorem irqp_instr_cpy (m : AddrMode)
    (hm : ∀ u, ((m u).2).IRQ_pending = u.IRQ_pending) (s : Machine) :
    (instr_cpy m s).IRQ_pending = s.IRQ_pending := by
  simp [instr_cpy, branch_commit, apply_ite Machine.IRQ_pending, hm, irqp_cpu_read, irqp_cpu_write, irqp_push_byte, irqp_push_word, irqp_pull_byte, irqp_pull_word]

theorem irqp_instr_dec (m : AddrMode)
    (hm : ∀ u, ((m u).2).IRQ_pending = u.IRQ_pending) (s : Machine) :
    (instr_dec m s).IRQ_pending = s.IRQ_pending := by
  simp [instr_dec, branch_commit, apply_ite Machine.IRQ_pending, hm, irqp_cpu_read, irqp_cpu_write, irqp_push_byte, irqp_push_word, irqp_pull_byte, irqp_pull_word]

theorem irqp_instr_eor (m : AddrMode)
    (hm : ∀ u, ((m u).2).IRQ_pending = u.IRQ_pending) (s : Machine) :
    (instr_eor m s).IRQ_pending = s.IRQ_pending := by
  simp [instr_eor, branch_commit, apply_ite Machine.IRQ_pending, hm, irqp_cpu_read, irqp_cpu_write, irqp_push_byte, irqp_push_word, irqp_pull_byte, irqp_pull_word]

theorem irqp_instr_inc (m : AddrMode)
    (hm : ∀ u, ((m u).2).IRQ_pending = u.IRQ_pending) (s : Machine) :
    (instr_inc m s).IRQ_pending = s.IRQ_pending := by
  simp [instr_inc, branch_commit, apply_ite Machine.IRQ_pending, hm, irqp_cpu_read, irqp_cpu_write, irqp_push_byte, irqp_push_word, irqp_pull_byte, irqp_pull_word]

theorem irqp_instr_jmp (m : AddrMode)
    (hm : ∀ u, ((m u).2).IRQ_pending = u.IRQ_pending) (s : Machine) :
    (instr_jmp m s).IRQ_pending = s.IRQ_pending := by
  simp [instr_jmp, branch_commit, apply_ite Machine.IRQ_pending, hm, irqp_cpu_read, irqp_cpu_write, irqp_push_byte, irqp_push_word, irqp_pull_byte, irqp_pull_word]

theorem irqp_instr_jsr (m : AddrMode)
    (hm : ∀ u, ((m u).2).IRQ_pending = u.IRQ_pending) (s : Machine) :
    (instr_jsr m s).IRQ_pending = s.IRQ_pending := by
  simp [instr_jsr, branch_commit, apply_ite Machine.IRQ_pending, hm, irqp_cpu_read, irqp_cpu_write, irqp_push_byte, irqp_push_word, irqp_pull_byte, irqp_pull_word]

theorem irqp_instr_lda (m : AddrMode)
    (hm : ∀ u, ((m u).2).IRQ_pending = u.IRQ_pending) (s : Machine) :
    (instr_lda m s).IRQ_pending = s.IRQ_pending := by
  simp [instr_lda, branch_commit, apply_ite Machine.IRQ_pending, hm, irqp_cpu_read, irqp_cpu_write, irqp_push_byte, irqp_push_word, irqp_pull_byte, irqp_pull_word]

theorem irqp_instr_ldx (m : AddrMode)
    (hm : ∀ u, ((m u).2).IRQ_pending = u.IRQ_pending) (s : Machine) :
    (instr_ldx m s).IRQ_pending = s.IRQ_pending := by
  simp [instr_ldx, branch_commit, apply_ite Machine.IRQ_pending, hm, irqp_cpu_read, irqp_cpu_write, irqp_push_byte, irqp_push_word, irqp_pull_byte, irqp_pull_word]

theorem irqp_instr_ldy (m : AddrMode)
    (hm : ∀ u, ((m u).2).IRQ_pending = u.IRQ_pending) (s : Machine) :
    (instr_ldy m s).IRQ_pending = s.IRQ_pending := by
  simp [instr_ldy, branch_commit, apply_ite Machine.IRQ_pending, hm, irqp_cpu_read, irqp_cpu_write, irqp_push_byte, irqp_push_word, irqp_pull_byte, irqp_pull_word]

theorem irqp_instr_lsr (m : AddrMode)
    (hm : ∀ u, ((m u).2).IRQ_pending = u.IRQ_pending) (s : Machine) :
    (instr_lsr m s).IRQ_pending = s.IRQ_pending := by
  simp [instr_lsr, branch_commit, apply_ite Machine.IRQ_pending, hm, irqp_cpu_read, irqp_cpu_write, irqp_push_byte, irqp_push_word, irqp_pull_byte, irqp_pull_word]

theorem irqp_instr_ora (m : AddrMode)
    (hm : ∀ u, ((m u).2).IRQ_pending = u.IRQ_pending) (s : Machine) :
    (instr_ora m s).IRQ_pending = s.IRQ_pending := by
  simp [instr_ora, branch_commit, apply_ite Machine.IRQ_pending, hm, irqp_cpu_read, irqp_cpu_write, irqp_push_byte, irqp_push_word, irqp_pull_byte, irqp_pull_word]

theorem irqp_instr_rol (m : AddrMode)
    (hm : ∀ u, ((m u).2).IRQ_pending = u.IRQ_pending) (s : Machine) :
    (instr_rol m s).IRQ_pending = s.IRQ_pending := by
  simp [instr_rol, branch_commit, apply_ite Machine.IRQ_pending, hm, irqp_cpu_read, irqp_cpu_write, irqp_push_byte, irqp_push_word, irqp_pull_byte, irqp_pull_word]

theorem irqp_instr_ror (m : AddrMode)
    (hm : ∀ u, ((m u).2).IRQ_pending = u.IRQ_pending) (s : Machine) :
    (instr_ror m s).IRQ_pending = s.IRQ_pending := by
  simp [instr_ror, branch_commit, apply_ite Machine.IRQ_pending, hm, irqp_cpu_read, irqp_cpu_write, irqp_push_byte, irqp_push_word, irqp_pull_byte, irqp_pull_word]

theorem irqp_instr_sbc (m : AddrMode)
    (hm : ∀ u, ((m u).2).IRQ_pending = u.IRQ_pending) (s : Machine) :
    (instr_sbc m s).IRQ_pending = s.IRQ_pending := by
  simp [instr_sbc, branch_commit, apply_ite Machine.IRQ_pending, hm, irqp_cpu_read, irqp_cpu_write, irqp_push_byte, irqp_push_word, irqp_pull_byte, irqp_pull_word]

theorem irqp_instr_sta (m : AddrMode)
    (hm : ∀ u, ((m u).2).IRQ_pending = u.IRQ_pending) (s : Machine) :
    (instr_sta m s).IRQ_pending = s.IRQ_pending := by
  simp [instr_sta, branch_commit, apply_ite Machine.IRQ_pending, hm, irqp_cpu_read, irqp_cpu_write, irqp_push_byte, irqp_push_word, irqp_pull_byte, irqp_pull_word]

theorem irqp_instr_stx (m : AddrMode)
    (hm : ∀ u, ((m u).2).IRQ_pending = u.IRQ_pending) (s : Machine) :
    (instr_stx m s).IRQ_pending = s.IRQ_pending := by
  simp [instr_stx, branch_commit, apply_ite Machine.IRQ_pending, hm, irqp_cpu_read, irqp_cpu_write, irqp_push_byte, irqp_push_word, irqp_pull_byte, irqp_pull_word]

theorem irqp_instr_sty (m : AddrMode)
    (hm : ∀ u, ((m u).2).IRQ_pending = u.IRQ_pending) (s : Machine) :
    (instr_sty m s).IRQ_pending = s.IRQ_pending := by
  simp [instr_sty, branch_commit, apply_ite Machine.IRQ_pending, hm, irqp_cpu_read, irqp_cpu_write, irqp_push_byte, irqp_push_word, irqp_pull_byte, irqp_pull_word]

theorem irqp_instr_asl_accumulator (s : Machine) :
    (instr_asl_accumulator s).IRQ_pending = s.IRQ_pending := by
  simp [instr_asl_accumulator, apply_ite Machine.IRQ_pending, irqp_cpu_read, irqp_cpu_write, irqp_push_byte, irqp_push_word, irqp_pull_byte, irqp_pull_word]

theorem irqp_instr_brk (s : Machine) :
    (instr_brk s).IRQ_pending = s.IRQ_pending := by
  simp [instr_brk, apply_ite Machine.IRQ_pending, irqp_cpu_read, irqp_cpu_write, irqp_push_byte, irqp_push_word, irqp_pull_byte, irqp_pull_word]

theorem irqp_instr_clc (s : Machine) :
    (instr_clc s).IRQ_pending = s.IRQ_pending := by
  simp [instr_clc, apply_ite Machine.IRQ_pending, irqp_cpu_read, irqp_cpu_write, irqp_push_byte, irqp_push_word, irqp_pull_byte, irqp_pull_word]

theorem irqp_instr_cld (s : Machine) :
    (instr_cld s).IRQ_pending = s.IRQ_pending := by
  simp [instr_cld, apply_ite Machine.IRQ_pending, irqp_cpu_read, irqp_cpu_write, irqp_push_byte, irqp_push_word, irqp_pull_byte, irqp_pull_word]

theorem irqp_instr_cli (s : Machine) :
    (instr_cli s).IRQ_pending = s.IRQ_pending := by
  simp [instr_cli, apply_ite Machine.IRQ_pending, irqp_cpu_read, irqp_cpu_write, irqp_push_byte, irqp_push_word, irqp_pull_byte, irqp_pull_word]

theorem irqp_instr_clv (s : Machine) :
    (instr_clv s).IRQ_pending = s.IRQ_pending := by
  simp [instr_clv, apply_ite Machine.IRQ_pending, irqp_cpu_read, irqp_cpu_write, irqp_push_byte, irqp_push_word, irqp_pull_byte, irqp_pull_word]

theorem irqp_instr_dex (s : Machine) :
    (instr_dex s).IRQ_pending = s.IRQ_pending := by
  simp [instr_dex, apply_ite Machine.IRQ_pending, irqp_cpu_read, irqp_cpu_write, irqp_push_byte, irqp_push_word, irqp_pull_byte, irqp_pull_word]

theorem irqp_instr_dey (s : Machine) :
    (instr_dey s).IRQ_pending = s.IRQ_pending := by
  simp [instr_dey, apply_ite Machine.IRQ_pending, irqp_cpu_read, irqp_cpu_write, irqp_push_byte, irqp_push_word, irqp_pull_byte, irqp_pull_word]

theorem irqp_instr_inx (s : Machine) :
    (instr_inx s).IRQ_pending = s.IRQ_pending := by
  simp [instr_inx, apply_ite Machine.IRQ_pending, irqp_cpu_read, irqp_cpu_write, irqp_push_byte, irqp_push_word, irqp_pull_byte, irqp_pull_word]

theorem irqp_instr_iny (s : Machine) :
    (instr_iny s).IRQ_pending = s.IRQ_pending := by
  simp [instr_iny, apply_ite Machine.IRQ_pending, irqp_cpu_read, irqp_cpu_write, irqp_push_byte, irqp_push_word, irqp_pull_byte, irqp_pull_word]

theorem irqp_instr_lsr_accumulator (s : Machine) :
    (instr_lsr_accumulator s).IRQ_pending = s.IRQ_pending := by
  simp [instr_lsr_accumulator, apply_ite Machine.IRQ_pending, irqp_cpu_read, irqp_cpu_write, irqp_push_byte, irqp_push_word, irqp_pull_byte, irqp_pull_word]

theorem irqp_instr_nop (s : Machine) :
    (instr_nop s).IRQ_pending = s.IRQ_pending := by
  simp [instr_nop, apply_ite Machine.IRQ_pending, irqp_cpu_read, irqp_cpu_write, irqp_push_byte, irqp_push_word, irqp_pull_byte, irqp_pull_word]

theorem irqp_instr_pha (s : Machine) :
    (instr_pha s).IRQ_pending = s.IRQ_pending := by
  simp [instr_pha, apply_ite Machine.IRQ_pending, irqp_cpu_read, irqp_cpu_write, irqp_push_byte, irqp_push_word, irqp_pull_byte, irqp_pull_word]

theorem irqp_instr_php (s : Machine) :
    (instr_php s).IRQ_pending = s.IRQ_pending := by
  simp [instr_php, apply_ite Machine.IRQ_pending, irqp_cpu_read, irqp_cpu_write, irqp_push_byte, irqp_push_word, irqp_pull_byte, irqp_pull_word]

theorem irqp_instr_pla (s : Machine) :
    (instr_pla s).IRQ_pending = s.IRQ_pending := by
  simp [instr_pla, apply_ite Machine.IRQ_pending, irqp_cpu_read, irqp_cpu_write, irqp_push_byte, irqp_push_word, irqp_pull_byte, irqp_pull_word]

theorem irqp_instr_plp (s : Machine) :
    (instr_plp s).IRQ_pending = s.IRQ_pending := by
  simp [instr_plp, apply_ite Machine.IRQ_pending, irqp_cpu_read, irqp_cpu_write, irqp_push_byte, irqp_push_word, irqp_pull_byte, irqp_pull_word]

theorem irqp_instr_rol_accumulator (s : Machine) :
    (instr_rol_accumulator s).IRQ_pending = s.IRQ_pending := by
  simp [instr_rol_accumulator, apply_ite Machine.IRQ_pending, irqp_cpu_read, irqp_cpu_write, irqp_push_byte, irqp_push_word, irqp_pull_byte, irqp_pull_word]

theorem irqp_instr_ror_accumulator (s : Machine) :
    (instr_ror_accumulator s).IRQ_pending = s.IRQ_pending := by
  simp [instr_ror_accumulator, apply_ite Machine.IRQ_pending, irqp_cpu_read, irqp_cpu_write, irqp_push_byte, irqp_push_word, irqp_pull_byte, irqp_pull_word]

theorem irqp_instr_rti (s : Machine) :
    (instr_rti s).IRQ_pending = s.IRQ_pending := by
  simp [instr_rti, apply_ite Machine.IRQ_pending, irqp_cpu_read, irqp_cpu_write, irqp_push_byte, irqp_push_word, irqp_pull_byte, irqp_pull_word]

theorem irqp_instr_rts (s : Machine) :
    (instr_rts s).IRQ_pending = s.IRQ_pending := by
  simp [instr_rts, apply_ite Machine.IRQ_pending, irqp_cpu_read, irqp_cpu_write, irqp_push_byte, irqp_push_word, irqp_pull_byte, irqp_pull_word]

theorem irqp_instr_sec (s : Machine) :
    (instr_sec s).IRQ_pending = s.IRQ_pending := by
  simp [instr_sec, apply_ite Machine.IRQ_pending, irqp_cpu_read, irqp_cpu_write, irqp_push_byte, irqp_push_word, irqp_pull_byte, irqp_pull_word]

theorem irqp_instr_sed (s : Machine) :
    (instr_sed s).IRQ_pending = s.IRQ_pending := by
  simp [instr_sed, apply_ite Machine.IRQ_pending, irqp_cpu_read, irqp_cpu_write, irqp_push_byte, irqp_push_word, irqp_pull_byte, irqp_pull_word]

theorem irqp_instr_sei (s : Machine) :
    (instr_sei s).IRQ_pending = s.IRQ_pending := by
  simp [instr_sei, apply_ite Machine.IRQ_pending, irqp_cpu_read, irqp_cpu_write, irqp_push_byte, irqp_push_word, irqp_pull_byte, irqp_pull_word]

theorem irqp_instr_tax (s : Machine) :
    (instr_tax s).IRQ_pending = s.IRQ_pending := by
  simp [instr_tax, apply_ite Machine.IRQ_pending, irqp_cpu_read, irqp_cpu_write, irqp_push_byte, irqp_push_word, irqp_pull_byte, irqp_pull_word]

theorem irqp_instr_tay (s : Machine) :
    (instr_tay s).IRQ_pending = s.IRQ_pending := by
  simp [instr_tay, apply_ite Machine.IRQ_pending, irqp_cpu_read, irqp_cpu_write, irqp_push_byte, irqp_push_word, irqp_pull_byte, irqp_pull_word]

theorem irqp_instr_tsx (s : Machine) :
    (instr_tsx s).IRQ_pending = s.IRQ_pending := by
  simp [instr_tsx, apply_ite Machine.IRQ_pending, irqp_cpu_read, irqp_cpu_write, irqp_push_byte, irqp_push_word, irqp_pull_byte, irqp_pull_word]

theorem irqp_instr_txa (s : Machine) :
    (instr_txa s).IRQ_pending = s.IRQ_pending := by
  simp [instr_txa, apply_ite Machine.IRQ_pending, irqp_cpu_read, irqp_cpu_write, irqp_push_byte, irqp_push_word, irqp_pull_byte, irqp_pull_word]

theorem irqp_instr_txs (s : Machine) :
    (instr_txs s).IRQ_pending = s.IRQ_pending := by
  simp [instr_txs, apply_ite Machine.IRQ_pending, irqp_cpu_read, irqp_cpu_write, irqp_push_byte, irqp_push_word, irqp_pull_byte, irqp_pull_word]

theorem irqp_instr_tya (s : Machine) :
    (instr_tya s).IRQ_pending = s.IRQ_pending := by
  simp [instr_tya, apply_ite Machine.IRQ_pending, irqp_cpu_read, irqp_cpu_write, irqp_push_byte, irqp_push_word, irqp_pull_byte, irqp_pull_word]

set_option maxHeartbeats 4000000 in
set_option maxRecDepth 65536 in
/-- Every procedure installed in the opcode table leaves the IRQ latch
untouched. -/
theorem irqp_table (n : Nat) (f : Machine → Machine)
    (h : (opcode_table n).execute = some f) (s : Machine) :
    (f s).IRQ_pending = s.IRQ_pending := by
  unfold opcode_table at h
  split at h <;>
    first
      | (injection h with h; subst h;
         simp [irqp_instr_adc, irqp_instr_and, irqp_instr_asl, irqp_instr_bcc, irqp_instr_bcs, irqp_instr_beq, irqp_instr_bit, irqp_instr_bmi, irqp_instr_bne, irqp_instr_bpl, irqp_instr_bvc, irqp_instr_bvs, irqp_instr_cmp, irqp_instr_cpx, irqp_instr_cpy, irqp_instr_dec, irqp_instr_eor, irqp_instr_inc, irqp_instr_jmp, irqp_instr_jsr, irqp_instr_lda, irqp_instr_ldx, irqp_instr_ldy, irqp_instr_lsr, irqp_instr_ora, irqp_instr_rol, irqp_instr_ror, irqp_instr_sbc, irqp_instr_sta, irqp_instr_stx, irqp_instr_sty, irqp_instr_asl_accumulator, irqp_instr_brk, irqp_instr_clc, irqp_instr_cld, irqp_instr_cli, irqp_instr_clv, irqp_instr_dex, irqp_instr_dey, irqp_instr_inx, irqp_instr_iny, irqp_instr_lsr_accumulator, irqp_instr_nop, irqp_instr_pha, irqp_instr_php, irqp_instr_pla, irqp_instr_plp, irqp_instr_rol_accumulator, irqp_instr_ror_accumulator, irqp_instr_rti, irqp_instr_rts, irqp_instr_sec, irqp_instr_sed, irqp_instr_sei, irqp_instr_tax, irqp_instr_tay, irqp_instr_tsx, irqp_instr_txa, irqp_instr_txs, irqp_instr_tya, irqp_addr_immediate, irqp_addr_zero_page, irqp_addr_zero_page_x, irqp_addr_zero_page_y, irqp_addr_absolute, irqp_addr_absolute_x, irqp_addr_absolute_y, irqp_addr_indirect, irqp_addr_indirect_x, irqp_addr_indirect_y, irqp_addr_relative])
      | (exact Option.noConfusion h)

/-! ## C2 -/

/-- Reading back the interrupt-disable bit just written by `set_flag`. -/
theorem get_flag_set_flag_interrupt (p : Nat) (b : Bool) :
    get_flag (set_flag p FLAG_INTERRUPT b) FLAG_INTERRUPT = b := by
  cases b with
  | false =>
    simp [get_flag, set_flag, FLAG_INTERRUPT, Nat.testBit_land,
      show Nat.testBit 251 2 = false from by decide]
  | true =>
    simp [get_flag, set_flag, FLAG_INTERRUPT, Nat.testBit_lor,
      show Nat.testBit 4 2 = true from by decide]

set_option maxHeartbeats 1000000 in
set_option maxRecDepth 8192 in
/-- Servicing with the NMI latch observed: two pushes of `PC`, a raw
push of `P`, the `I` assignment, the `0xFFFA/0xFFFB` vector load and the
7-cycle charge, written out as one RAM update. -/
theorem service_interrupt_nmi_plain (t : Machine) (b : Bool)
    (h3 : 3 ≤ t.reg.SP) (hSP : t.reg.SP < 256) :
    service_interrupt t true b =
      { t with
        ram := fun i =>
          if i = 0x0100 + t.reg.SP - 2 then t.reg.P % 256
          else if i = 0x0100 + t.reg.SP - 1 then (t.reg.PC &&& 0xFF) % 256
          else if i = 0x0100 + t.reg.SP then ((t.reg.PC >>> 8) &&& 0xFF) % 256
          else t.ram i
        reg := { t.reg with
          PC := t.ram 0xFFFA % 256 + 256 * (t.ram 0xFFFB % 256)
          SP := t.reg.SP - 3
          P := set_flag t.reg.P FLAG_INTERRUPT b }
        cycle_count := t.cycle_count + 7 } := by
  simp only [service_interrupt, if_true]
  rw [push_word_plain _ _ (by omega) (by omega)]
  simp only
  rw [push_byte_plain _ _ (by show t.reg.SP - 2 < 256; omega)]
  simp only
  rw [cpu_read_pure _ 0xFFFA (by decide), cpu_read_pure _ 0xFFFB (by decide)]
  simp only
  have e1 : (t.reg.SP - 2 + 255) % 256 = t.reg.SP - 3 := by omega
  have e2 : 0x0100 + (t.reg.SP - 2) = 0x0100 + t.reg.SP - 2 := by omega
  rw [e1, e2]
  have hne1 : ¬ ((0xFFFA : Nat) % 65536 = 0x0100 + t.reg.SP - 2) := by omega
  have hne2 : ¬ ((0xFFFA : Nat) % 65536 = 0x0100 + t.reg.SP - 1) := by omega
  have hne3 : ¬ ((0xFFFA : Nat) % 65536 = 0x0100 + t.reg.SP) := by omega
  have hne4 : ¬ ((0xFFFB : Nat) % 65536 = 0x0100 + t.reg.SP - 2) := by omega
  have hne5 : ¬ ((0xFFFB : Nat) % 65536 = 0x0100 + t.reg.SP - 1) := by omega
  have hne6 : ¬ ((0xFFFB : Nat) % 65536 = 0x0100 + t.reg.SP) := by omega
  have hPCeq : t.ram (0xFFFA % 65536) % 256 ||| (t.ram (0xFFFB % 65536) % 256) <<< 8 =
      t.ram 0xFFFA % 256 + 256 * (t.ram 0xFFFB % 256) := by
    rw [lor_shift8 _ _ (Nat.mod_lt _ (by norm_num))]
  simp only [hne1, hne2, hne3, hne4, hne5, hne6, if_false, hPCeq]

/-- A machine with the NMI latch set, `P = 0x34`, and an NMI vector of
`0x7000`. -/
def nmiMach : Machine :=
  { reg := ⟨0, 0, 0, 0x8000, 0xFD, 0x34⟩
    ram := fun a => if a = 0xFFFA then 0x00 else if a = 0xFFFB then 0x70 else 0
    input_queue := queue_init
    output_queue := queue_init
    IRQ_pending := false
    NMI_pending := true
    cycle_count := 0 }

/-- C2 counterexample: servicing the NMI pushes `P` exactly as it is
(`0x34`, B still set, nothing adjusted) rather than with B cleared and U
set (`0x24`), and it clears — not sets — the I flag when no IRQ is
serviced alongside. -/
theorem C2_nmi_counterexample :
    ¬ ((interrupt_phase nmiMach).ram 0x01FB =
         ((nmiMach.reg.P &&& 0xEF) ||| 0x20) ∧
       get_flag (interrupt_phase nmiMach).reg.P FLAG_INTERRUPT = true) := by
  decide

set_option maxRecDepth 8192 in
set_option maxHeartbeats 1000000 in
/-- C2 amended: with the NMI latch set at step entry, the interrupt
block pushes the pre-step `PC` high byte then low byte, pushes `P`
unchanged (B and U bits exactly as they are in `P`), assigns the I flag
the value "an IRQ is serviced in the same step" (so with the NMI alone
the I flag ends clear), loads `PC` from the little-endian vector at
`0xFFFA/0xFFFB`, clears the NMI latch, and adds 7 cycles. -/
theorem C2_nmi_service (s : Machine) (hn : s.NMI_pending = true)
    (h3 : 3 ≤ s.reg.SP) (hSP : s.reg.SP < 256) (hP : s.reg.P < 256)
    (hPC : s.reg.PC < 65536) :
    (interrupt_phase s).ram (0x0100 + s.reg.SP) = s.reg.PC / 256 ∧
    (interrupt_phase s).ram (0x0100 + s.reg.SP - 1) = s.reg.PC % 256 ∧
    (interrupt_phase s).ram (0x0100 + s.reg.SP - 2) = s.reg.P ∧
    get_flag (interrupt_phase s).reg.P FLAG_INTERRUPT =
      (s.IRQ_pending && !(get_flag s.reg.P FLAG_INTERRUPT)) ∧
    (interrupt_phase s).reg.PC =
      s.ram 0xFFFA % 256 + 256 * (s.ram 0xFFFB % 256) ∧
    (interrupt_phase s).NMI_pending = false ∧
    (interrupt_phase s).cycle_count = s.cycle_count + 7 ∧
    (interrupt_phase s).reg.SP = s.reg.SP - 3 := by
  have hphase : interrupt_phase s =
      { s with
        ram := fun i =>
          if i = 0x0100 + s.reg.SP - 2 then s.reg.P % 256
          else if i = 0x0100 + s.reg.SP - 1 then (s.reg.PC &&& 0xFF) % 256
          else if i = 0x0100 + s.reg.SP then ((s.reg.PC >>> 8) &&& 0xFF) % 256
          else s.ram i
        reg := { s.reg with
          PC := s.ram 0xFFFA % 256 + 256 * (s.ram 0xFFFB % 256)
          SP := s.reg.SP - 3
          P := set_flag s.reg.P FLAG_INTERRUPT
            (s.IRQ_pending && !(get_flag s.reg.P FLAG_INTERRUPT)) }
        NMI_pending := false
        IRQ_pending :=
          if s.IRQ_pending && !(get_flag s.reg.P FLAG_INTERRUPT) then false
          else s.IRQ_pending
        cycle_count := s.cycle_count + 7 } := by
    simp only [interrupt_phase, hn, Bool.true_or, if_true]
    rw [service_interrupt_nmi_plain _ _ (by show 3 ≤ s.reg.SP; omega)
      (by show s.reg.SP < 256; omega)]
  rw [hphase]
  refine ⟨?_, ?_, ?_, ?_, rfl, rfl, rfl, rfl⟩
  · have ha : ¬ (0x0100 + s.reg.SP = 0x0100 + s.reg.SP - 2) := by omega
    have hb : ¬ (0x0100 + s.reg.SP = 0x0100 + s.reg.SP - 1) := by omega
    simp only [ha, hb, if_false, if_true]
    rw [land_ff, Nat.shiftRight_eq_div_pow]
    norm_num
    omega
  · have ha : ¬ (0x0100 + s.reg.SP - 1 = 0x0100 + s.reg.SP - 2) := by omega
    simp only [ha, if_false, if_true]
    rw [land_ff]
    omega
  · simp only [if_true]
    exact Nat.mod_eq_of_lt hP
  · exact get_flag_set_flag_interrupt _ _

/-- Closed witness for C2's amended statement. -/
theorem C2_nmi_service_witness :
    (interrupt_phase nmiMach).NMI_pending = false ∧
    (interrupt_phase nmiMach).cycle_count = nmiMach.cycle_count + 7 :=
  ⟨(C2_nmi_service nmiMach (by decide) (by decide) (by decide) (by decide)
      (by decide)).2.2.2.2.2.1,
   (C2_nmi_service nmiMach (by decide) (by decide) (by decide) (by decide)
      (by decide)).2.2.2.2.2.2.1⟩

/-! ## C10 -/

/-- With the `I` flag set, the interrupt block leaves the whole machine
untouched: the pending IRQ is neither serviced nor cleared. -/
theorem interrupt_phase_deferred (s : Machine) (hirq : s.IRQ_pending = true)
    (hI : get_flag s.reg.P FLAG_INTERRUPT = true) (hn : s.NMI_pending = false) :
    interrupt_phase s = s := by
  rcases s with ⟨reg, ram, iq, oq, irq, nmi, cc⟩
  subst hirq
  subst hn
  simp [interrupt_phase, hI]

/-- With the `I` flag set, a whole step (interrupt block, clock wait,
fetch, dispatch) leaves the IRQ latch pending. -/
theorem irqp_step_deferred (s : Machine) (hirq : s.IRQ_pending = true)
    (hI : get_flag s.reg.P FLAG_INTERRUPT = true) (hn : s.NMI_pending = false) :
    (cpu_execute_instruction s).2.IRQ_pending = true := by
  have hp := interrupt_phase_deferred s hirq hI hn
  simp only [cpu_execute_instruction, hp]
  rcases hE : (opcode_table ((fetch_byte (clock_wait_next_cycle s)).1 % 256)).execute
    with _ | f
  · simp only [hE]
    rw [irqp_fetch_byte]
    exact hirq
  · simp only [hE]
    rw [irqp_table _ f hE, irqp_fetch_byte]
    exact hirq

set_option maxHeartbeats 1000000 in
set_option maxRecDepth 8192 in
/-- Servicing with only the IRQ latch observed: like the NMI case but
the vector is read from `0xFFFE/0xFFFF`. -/
theorem service_interrupt_irq_plain (t : Machine) (b : Bool)
    (h3 : 3 ≤ t.reg.SP) (hSP : t.reg.SP < 256) :
    service_interrupt t false b =
      { t with
        ram := fun i =>
          if i = 0x0100 + t.reg.SP - 2 then t.reg.P % 256
          else if i = 0x0100 + t.reg.SP - 1 then (t.reg.PC &&& 0xFF) % 256
          else if i = 0x0100 + t.reg.SP then ((t.reg.PC >>> 8) &&& 0xFF) % 256
          else t.ram i
        reg := { t.reg with
          PC := t.ram 0xFFFE % 256 + 256 * (t.ram 0xFFFF % 256)
          SP := t.reg.SP - 3
          P := set_flag t.reg.P FLAG_INTERRUPT b }
        cycle_count := t.cycle_count + 7 } := by
  simp only [service_interrupt, Bool.false_eq_true, if_false]
  rw [push_word_plain _ _ (by omega) (by omega)]
  simp only
  rw [push_byte_plain _ _ (by show t.reg.SP - 2 < 256; omega)]
  simp only
  rw [cpu_read_pure _ 0xFFFE (by decide), cpu_read_pure _ 0xFFFF (by decide)]
  simp only
  have e1 : (t.reg.SP - 2 + 255) % 256 = t.reg.SP - 3 := by omega
  have e2 : 0x0100 + (t.reg.SP - 2) = 0x0100 + t.reg.SP - 2 := by omega
  rw [e1, e2]
  have hne1 : ¬ ((0xFFFE : Nat) % 65536 = 0x0100 + t.reg.SP - 2) := by omega
  have hne2 : ¬ ((0xFFFE : Nat) % 65536 = 0x0100 + t.reg.SP - 1) := by omega
  have hne3 : ¬ ((0xFFFE : Nat) % 65536 = 0x0100 + t.reg.SP) := by omega
  have hne4 : ¬ ((0xFFFF : Nat) % 65536 = 0x0100 + t.reg.SP - 2) := by omega
  have hne5 : ¬ ((0xFFFF : Nat) % 65536 = 0x0100 + t.reg.SP - 1) := by omega
  have hne6 : ¬ ((0xFFFF : Nat) % 65536 = 0x0100 + t.reg.SP) := by omega
  have hPCeq : t.ram (0xFFFE % 65536) % 256 ||| (t.ram (0xFFFF % 65536) % 256) <<< 8 =
      t.ram 0xFFFE % 256 + 256 * (t.ram 0xFFFF % 256) := by
    rw [lor_shift8 _ _ (Nat.mod_lt _ (by norm_num))]
  simp only [hne1, hne2, hne3, hne4, hne5, hne6, if_false, hPCeq]

/-- A machine with the IRQ latch set and the `I` flag set (`P = 0x04`). -/
def irqHeldMach : Machine :=
  { reg := ⟨0, 0, 0, 0x8000, 0xFD, 0x04⟩
    ram := fun _ => 0xEA
    input_queue := queue_init
    output_queue := queue_init
    IRQ_pending := true
    NMI_pending := false
    cycle_count := 0 }

/-- A machine with the IRQ latch set and the `I` flag clear
(`P = 0x00`), with an IRQ vector of `0x1234`. -/
def irqOpenMach : Machine :=
  { reg := ⟨0, 0, 0, 0x8000, 0xFD, 0x00⟩
    ram := fun a => if a = 0xFFFE then 0x34 else if a = 0xFFFF then 0x12 else 0
    input_queue := queue_init
    output_queue := queue_init
    IRQ_pending := true
    NMI_pending := false
    cycle_count := 0 }

/-- C10: with the IRQ latch set and the `I` flag set at step entry, the
interrupt block is the identity (nothing serviced, latch not cleared)
and the IRQ latch is still pending after the whole step; at any step
entry with the `I` flag clear, the pending IRQ is serviced: the latch is
cleared, `PC` is loaded from the `0xFFFE/0xFFFF` vector, the `I` flag is
set, and 7 cycles are charged. -/
theorem C10_irq_deferral :
    (∀ s : Machine, s.IRQ_pending = true →
      get_flag s.reg.P FLAG_INTERRUPT = true → s.NMI_pending = false →
      interrupt_phase s = s ∧
      (cpu_execute_instruction s).2.IRQ_pending = true) ∧
    (∀ s : Machine, s.IRQ_pending = true →
      get_flag s.reg.P FLAG_INTERRUPT = false → s.NMI_pending = false →
      3 ≤ s.reg.SP → s.reg.SP < 256 →
      (interrupt_phase s).IRQ_pending = false ∧
      (interrupt_phase s).reg.PC =
        s.ram 0xFFFE % 256 + 256 * (s.ram 0xFFFF % 256) ∧
      get_flag (interrupt_phase s).reg.P FLAG_INTERRUPT = true ∧
      (interrupt_phase s).cycle_count = s.cycle_count + 7) := by
  constructor
  · intro s h1 h2 h3
    exact ⟨interrupt_phase_deferred s h1 h2 h3, irqp_step_deferred s h1 h2 h3⟩
  · intro s h1 h2 h3 h4 h5
    have hph : interrupt_phase s =
        { s with
          ram := fun i =>
            if i = 0x0100 + s.reg.SP - 2 then s.reg.P % 256
            else if i = 0x0100 + s.reg.SP - 1 then (s.reg.PC &&& 0xFF) % 256
            else if i = 0x0100 + s.reg.SP then ((s.reg.PC >>> 8) &&& 0xFF) % 256
            else s.ram i
          reg := { s.reg with
            PC := s.ram 0xFFFE % 256 + 256 * (s.ram 0xFFFF % 256)
            SP := s.reg.SP - 3
            P := set_flag s.reg.P FLAG_INTERRUPT true }
          IRQ_pending := false
          cycle_count := s.cycle_count + 7 } := by
      simp only [interrupt_phase, h1, h2, h3, Bool.not_false, Bool.true_and,
        Bool.false_or, if_true]
      rw [service_interrupt_irq_plain _ _ (by show 3 ≤ s.reg.SP; omega)
        (by show s.reg.SP < 256; omega)]
      simp [h3]
    rw [hph]
    refine ⟨rfl, rfl, ?_, rfl⟩
    show get_flag (set_flag s.reg.P FLAG_INTERRUPT true) FLAG_INTERRUPT = true
    exact get_flag_set_flag_interrupt _ _

/-- Closed witness for C10, exercising both the deferral and the
service branches at concrete machines. -/
theorem C10_irq_deferral_witness :
    (cpu_execute_instruction irqHeldMach).2.IRQ_pending = true ∧
    (interrupt_phase irqOpenMach).IRQ_pending = false ∧
    (interrupt_phase irqOpenMach).reg.PC = 0x1234 :=
  ⟨(C10_irq_deferral.1 irqHeldMach (by decide) (by decide) (by decide)).2,
   (C10_irq_deferral.2 irqOpenMach (by decide) (by decide) (by decide)
      (by decide) (by decide)).1,
   by
    rw [(C10_irq_deferral.2 irqOpenMach (by decide) (by decide) (by decide)
      (by decide) (by decide)).2.1]
    decide⟩

/-! ## C3 -/

/-- A machine about to step through `LDA $10FF,X` (`BD FF 10`) with
`X = 1`, so the effective address `0x1100` crosses a page. -/
def pagecrossMach : Machine :=
  { reg := ⟨0, 0x01, 0, 0x8000, 0xFD, 0x00⟩
    ram := fun a =>
      if a = 0x8000 then 0xBD
      else if a = 0x8001 then 0xFF
      else if a = 0x8002 then 0x10
      else if a = 0x1100 then 0x42
      else 0
    input_queue := queue_init
    output_queue := queue_init
    IRQ_pending := false
    NMI_pending := false
    cycle_count := 0 }

/-- C3: the step loads `A` from the page-crossed address `0x1100` as the
claim says, but the cycle count goes up by 2 (one from
`clock_wait_next_cycle` plus the page-cross penalty), not by 5 — no code
path adds the opcode table's base cycle cost (4 for `0xBD`) to the
pacer. -/
theorem C3_page_cross_cycles :
    (cpu_execute_instruction pagecrossMach).1 = CpuStatus.CPU_SUCCESS ∧
    (cpu_execute_instruction pagecrossMach).2.reg.A = 0x42 ∧
    (cpu_execute_instruction pagecrossMach).2.reg.PC = 0x8003 ∧
    (opcode_table 0xBD).cycles = 4 ∧
    (cpu_execute_instruction pagecrossMach).2.cycle_count =
      pagecrossMach.cycle_count + 2 ∧
    ¬ ((cpu_execute_instruction pagecrossMach).2.cycle_count =
         pagecrossMach.cycle_count + 5) := by
  decide

/-! ## C8 -/

set_option maxRecDepth 2048 in
/-- Bit-level effect of pulling back the byte pushed by `PHP`
(`p | 0x30`) through `PLP`'s mask (`& 0xEF | 0x20`), for status bytes. -/
theorem php_plp_bits : ∀ p : Nat, p < 256 →
    (((p ||| 48) &&& 239) ||| 32).testBit 0 = p.testBit 0 ∧
    (((p ||| 48) &&& 239) ||| 32).testBit 1 = p.testBit 1 ∧
    (((p ||| 48) &&& 239) ||| 32).testBit 2 = p.testBit 2 ∧
    (((p ||| 48) &&& 239) ||| 32).testBit 3 = p.testBit 3 ∧
    (((p ||| 48) &&& 239) ||| 32).testBit 4 = false ∧
    (((p ||| 48) &&& 239) ||| 32).testBit 5 = true ∧
    (((p ||| 48) &&& 239) ||| 32).testBit 6 = p.testBit 6 ∧
    (((p ||| 48) &&& 239) ||| 32).testBit 7 = p.testBit 7 := by
  decide

/-- C8: `PHP; PLP` restores the `C`, `Z`, `I`, `D`, `V`, `N` flags, ends
with the `B` bit masked off and the `U` bit set, and returns `SP` to its
prior value. -/
theorem C8_php_plp_roundtrip (s : Machine) (hP : s.reg.P < 256)
    (hSP : s.reg.SP < 256) :
    get_flag (instr_plp (instr_php s)).reg.P FLAG_CARRY =
      get_flag s.reg.P FLAG_CARRY ∧
    get_flag (instr_plp (instr_php s)).reg.P FLAG_ZERO =
      get_flag s.reg.P FLAG_ZERO ∧
    get_flag (instr_plp (instr_php s)).reg.P FLAG_INTERRUPT =
      get_flag s.reg.P FLAG_INTERRUPT ∧
    get_flag (instr_plp (instr_php s)).reg.P FLAG_DECIMAL =
      get_flag s.reg.P FLAG_DECIMAL ∧
    get_flag (instr_plp (instr_php s)).reg.P FLAG_OVERFLOW =
      get_flag s.reg.P FLAG_OVERFLOW ∧
    get_flag (instr_plp (instr_php s)).reg.P FLAG_NEGATIVE =
      get_flag s.reg.P FLAG_NEGATIVE ∧
    get_flag (instr_plp (instr_php s)).reg.P FLAG_BREAK = false ∧
    get_flag (instr_plp (instr_php s)).reg.P FLAG_UNUSED = true ∧
    (instr_plp (instr_php s)).reg.SP = s.reg.SP := by
  have hor48 : s.reg.P ||| 48 < 256 :=
    Nat.or_lt_two_pow (n := 8) hP (by norm_num)
  have hphp : instr_php s =
      { s with
        ram := fun i =>
          if i = 0x0100 + s.reg.SP then (s.reg.P ||| 0x30) % 256 else s.ram i
        reg := { s.reg with SP := (s.reg.SP + 255) % 256 } } := by
    simp only [instr_php]
    rw [push_byte_plain _ _ hSP]
  have hplp : instr_plp (instr_php s) =
      { s with
        ram := fun i =>
          if i = 0x0100 + s.reg.SP then (s.reg.P ||| 0x30) % 256 else s.ram i
        reg := { s.reg with
          P := ((s.reg.P ||| 48) &&& 0xEF) ||| 0x20 } } := by
    rw [hphp]
    simp only [instr_plp, pull_byte]
    have e1 : ((s.reg.SP + 255) % 256 + 1) % 256 = s.reg.SP := by omega
    simp only [e1]
    rw [cpu_read_pure _ _ (by omega)]
    simp only
    have e2 : (0x0100 + s.reg.SP) % 65536 = 0x0100 + s.reg.SP := by omega
    rw [e2]
    simp only [if_pos rfl]
    have e3 : (s.reg.P ||| 48) % 256 = s.reg.P ||| 48 :=
      Nat.mod_eq_of_lt hor48
    simp only [ite_true, if_true, e3]
  rw [hplp]
  obtain ⟨b0, b1, b2, b3, b4, b5, b6, b7⟩ := php_plp_bits s.reg.P hP
  exact ⟨b0, b1, b2, b3, b6, b7, b4, b5, rfl⟩

/-- Closed witness for C8. -/
theorem C8_php_plp_witness :
    get_flag (instr_plp (instr_php nmiMach)).reg.P FLAG_UNUSED = true ∧
    (instr_plp (instr_php nmiMach)).reg.SP = nmiMach.reg.SP :=
  ⟨(C8_php_plp_roundtrip nmiMach (by decide) (by decide)).2.2.2.2.2.2.2.1,
   (C8_php_plp_roundtrip nmiMach (by decide) (by decide)).2.2.2.2.2.2.2.2⟩

end Emu6502
